import Mathlib

/-!
# QextSerialPort, Windows back end

A shallow embedding of `src/qextserialport_win.cpp`.

* The session object (`QextSerialPort` with its private part) is the record `Port`.
* Every member function becomes a function from `Port` to `Port`, returning next to
  the new state the list of `Effect`s it performed (operating-system calls, warnings,
  signals), in program order.
* What the operating system answers is an explicit argument of the function that asks.
* `DWORD` values are naturals reduced modulo `2 ^ 32`, `qint64` values are integers
  reduced to the two's-complement range of 64 bits.
-/

namespace QextSerialPort

/-! ## Machine integers -/

/-- The C conversion `(DWORD)x`: reduction to an unsigned 32 bit value. -/
def toDWORD (x : Int) : Nat := (x % 2 ^ 32).toNat

/-- The C conversion `(qint64)x`: reduction to a two's-complement 64 bit value. -/
def toQint64 (x : Int) : Int := (x + 2 ^ 63) % 2 ^ 64 - 2 ^ 63

/-- The Windows constant `MAXDWORD`. -/
def MAXDWORD : Nat := 0xFFFFFFFF

/-- A Windows `HANDLE`, as an integer. -/
abbrev HANDLE := Int

/-- The Windows sentinel `INVALID_HANDLE_VALUE`, which is `(HANDLE)-1`. -/
def INVALID_HANDLE_VALUE : HANDLE := -1

/-- The Windows error code `ERROR_IO_PENDING`. -/
def ERROR_IO_PENDING : Nat := 997

/-- The Windows error code `ERROR_IO_INCOMPLETE`. -/
def ERROR_IO_INCOMPLETE : Nat := 996

/-! ## Enumerations of `qextserialport.h` -/

/-- Modelled from the spec: the error taxonomy `ErrorKind` of the header
`qextserialport.h` (the `E_...` constants stored in `lastErr`), with the names the
source file uses, and `E_NO_ERROR` for the state before any failure. -/
inductive ErrorKind
  | E_NO_ERROR
  | E_INVALID_FD
  | E_BREAK_CONDITION
  | E_FRAMING_ERROR
  | E_IO_ERROR
  | E_BUFFER_OVERRUN
  | E_RECEIVE_OVERFLOW
  | E_RECEIVE_PARITY_ERROR
  | E_TRANSMIT_OVERFLOW
  | E_READ_FAILED
  | E_WRITE_FAILED
  deriving DecidableEq, Repr

/-- Modelled from the spec: the enumeration `BaudRateType` of `qextserialport.h`;
one constructor for each `case` label of `setBaudRate`. -/
inductive BaudRateType
  | BAUD50 | BAUD75 | BAUD110 | BAUD134 | BAUD150 | BAUD200 | BAUD300 | BAUD600
  | BAUD1200 | BAUD1800 | BAUD2400 | BAUD4800 | BAUD9600 | BAUD14400 | BAUD19200
  | BAUD38400 | BAUD56000 | BAUD57600 | BAUD76800 | BAUD115200 | BAUD128000
  | BAUD256000
  deriving DecidableEq, Repr

/-- Modelled from the spec: the enumeration `DataBitsType` of `qextserialport.h`
(DataBits ∈ {5,6,7,8}). -/
inductive DataBitsType
  | DATA_5 | DATA_6 | DATA_7 | DATA_8
  deriving DecidableEq, Repr

/-- Modelled from the spec: the enumeration `StopBitsType` of `qextserialport.h`
(StopBits ∈ {1,1.5,2}). -/
inductive StopBitsType
  | STOP_1 | STOP_1_5 | STOP_2
  deriving DecidableEq, Repr

/-- Modelled from the spec: the enumeration `ParityType` of `qextserialport.h`
(Parity ∈ {None,Odd,Even,Mark,Space}). -/
inductive ParityType
  | PAR_NONE | PAR_ODD | PAR_EVEN | PAR_MARK | PAR_SPACE
  deriving DecidableEq, Repr

/-- Modelled from the spec: the enumeration `FlowType` of `qextserialport.h`
(FlowControl ∈ {Off,XonXoff,Hardware}). -/
inductive FlowType
  | FLOW_OFF | FLOW_HARDWARE | FLOW_XONXOFF
  deriving DecidableEq, Repr

/-- Modelled from the spec: the enumeration `QueryMode` of `qextserialport.h`
(OperatingMode ∈ {Polling, EventDriven}). -/
inductive QueryMode
  | Polling | EventDriven
  deriving DecidableEq, Repr

/-- Modelled from the spec: the record `PortSettings` of `qextserialport.h`. -/
structure PortSettings where
  BaudRate : BaudRateType
  DataBits : DataBitsType
  Parity : ParityType
  StopBits : StopBitsType
  FlowControl : FlowType
  Timeout_Millisec : Int
  deriving DecidableEq, Repr

/-! ## Windows records -/

/-- The fields of the Windows record `DCB` that the source file writes. -/
structure DCB where
  BaudRate : Nat
  ByteSize : Nat
  Parity : Nat
  StopBits : Nat
  fBinary : Bool
  fParity : Bool
  fOutxCtsFlow : Bool
  fRtsControl : Nat
  fInX : Bool
  fOutX : Bool
  fAbortOnError : Bool
  fNull : Bool
  deriving DecidableEq, Repr

/-- The Windows record `COMMTIMEOUTS`; every field is a `DWORD`. -/
structure COMMTIMEOUTS where
  ReadIntervalTimeout : Nat
  ReadTotalTimeoutMultiplier : Nat
  ReadTotalTimeoutConstant : Nat
  WriteTotalTimeoutMultiplier : Nat
  WriteTotalTimeoutConstant : Nat
  deriving DecidableEq, Repr

/-- A heap-allocated `OVERLAPPED` record, as `writeData` creates one per asynchronous
write: the address returned by `new` and the event handle stored in `hEvent`. -/
structure OVERLAPPED where
  addr : Nat
  hEvent : HANDLE
  deriving DecidableEq, Repr

/-! ## The session state -/

/-- The data members of the session that `qextserialport_win.cpp` reads or writes,
and the open flag of the `QIODevice` base class. -/
structure Port where
  /-- Whether `QIODevice::isOpen()` holds. -/
  isOpen : Bool
  /-- The operating mode answered by `queryMode()`. -/
  queryMode : QueryMode
  Win_Handle : HANDLE
  Settings : PortSettings
  /-- The member `Win_CommConfig.dcb`. -/
  dcb : DCB
  Win_CommTimeouts : COMMTIMEOUTS
  lastErr : ErrorKind
  pendingWrites : List OVERLAPPED
  _bytesToWrite : Int
  /-- The event handle of the member `overlap`. -/
  overlap_hEvent : HANDLE
  /-- The member `winEventNotifier`: `none` is the null pointer, `some h` a notifier
  registered on the event handle `h`. -/
  winEventNotifier : Option HANDLE
  eventMask : Nat
  deriving DecidableEq, Repr

/-- What a member function does to the outside, in program order. -/
inductive Effect
  | FlushFileBuffers (h : HANDLE)
  | CancelIo (h : HANDLE)
  | CloseHandle (h : HANDLE)
  /-- The statement `delete o` on an `OVERLAPPED` record. -/
  | deleteOverlapped (o : OVERLAPPED)
  /-- The call `winEventNotifier->deleteLater()`. -/
  | deleteLaterNotifier (h : HANDLE)
  | SetCommConfig (h : HANDLE) (d : DCB)
  | SetCommTimeouts (h : HANDLE) (t : COMMTIMEOUTS)
  | ClearCommError (h : HANDLE)
  | ReadFile (h : HANDLE) (len : Nat)
  | WriteFile (h : HANDLE) (len : Nat)
  | GetOverlappedResult (h : HANDLE)
  /-- The macro `TTY_WARNING`. -/
  | TTY_WARNING (msg : String)
  /-- The macro `TTY_PORTABILITY_WARNING`. -/
  | TTY_PORTABILITY_WARNING (msg : String)
  /-- A line sent to `qDebug()`. -/
  | qDebug (msg : String)
  /-- A line sent to `qWarning()`. -/
  | qWarning (msg : String)
  | CreateFileA
  | GetCommConfig (h : HANDLE)
  | GetCommState (h : HANDLE)
  | SetCommMask (h : HANDLE) (mask : Nat)
  | WaitCommEvent (h : HANDLE)
  | GetCommModemStatus (h : HANDLE)
  /-- The statement `new QWinEventNotifier(overlap.hEvent)` with its `connect`. -/
  | newWinEventNotifier (h : HANDLE)
  /-- The signal `readyRead()`. -/
  | readyRead
  /-- The signal `bytesWritten(qint64)`. -/
  | bytesWritten (n : Int)
  /-- The signal `dsrChanged(bool)`. -/
  | dsrChanged (status : Bool)
  deriving DecidableEq, Repr

/-- Whether an effect is a call that pushes a configuration to the device. -/
def Effect.isDeviceConfigCall : Effect → Bool
  | .SetCommConfig _ _ => true
  | .SetCommTimeouts _ _ => true
  | _ => false

/-! ## Error translation -/

/-- The Windows communication error flag `CE_RXOVER`. -/
def CE_RXOVER : Nat := 0x0001
/-- The Windows communication error flag `CE_OVERRUN`. -/
def CE_OVERRUN : Nat := 0x0002
/-- The Windows communication error flag `CE_RXPARITY`. -/
def CE_RXPARITY : Nat := 0x0004
/-- The Windows communication error flag `CE_FRAME`. -/
def CE_FRAME : Nat := 0x0008
/-- The Windows communication error flag `CE_BREAK`. -/
def CE_BREAK : Nat := 0x0010
/-- The Windows communication error flag `CE_TXFULL`. -/
def CE_TXFULL : Nat := 0x0100
/-- The Windows communication error flag `CE_IOE`. -/
def CE_IOE : Nat := 0x0400
/-- The Windows communication error flag `CE_MODE`. -/
def CE_MODE : Nat := 0x8000

/-- The function `QextSerialPortPrivate::translateError`. -/
def translateError (error : Nat) (s : Port) : Port :=
  if error &&& CE_BREAK ≠ 0 then { s with lastErr := .E_BREAK_CONDITION }
  else if error &&& CE_FRAME ≠ 0 then { s with lastErr := .E_FRAMING_ERROR }
  else if error &&& CE_IOE ≠ 0 then { s with lastErr := .E_IO_ERROR }
  else if error &&& CE_MODE ≠ 0 then { s with lastErr := .E_INVALID_FD }
  else if error &&& CE_OVERRUN ≠ 0 then { s with lastErr := .E_BUFFER_OVERRUN }
  else if error &&& CE_RXPARITY ≠ 0 then { s with lastErr := .E_RECEIVE_PARITY_ERROR }
  else if error &&& CE_RXOVER ≠ 0 then { s with lastErr := .E_RECEIVE_OVERFLOW }
  else if error &&& CE_TXFULL ≠ 0 then { s with lastErr := .E_TRANSMIT_OVERFLOW }
  else s

/-! ## Configuration setters -/

/-- The Windows constant `RTS_CONTROL_DISABLE`. -/
def RTS_CONTROL_DISABLE : Nat := 0
/-- The Windows constant `RTS_CONTROL_HANDSHAKE`. -/
def RTS_CONTROL_HANDSHAKE : Nat := 2
/-- The Windows constant `ONESTOPBIT`. -/
def ONESTOPBIT : Nat := 0
/-- The Windows constant `ONE5STOPBITS`. -/
def ONE5STOPBITS : Nat := 1
/-- The Windows constant `TWOSTOPBITS`. -/
def TWOSTOPBITS : Nat := 2

/-- The Windows baud constant `CBR_110`. -/
def CBR_110 : Nat := 110
/-- The Windows baud constant `CBR_300`. -/
def CBR_300 : Nat := 300
/-- The Windows baud constant `CBR_600`. -/
def CBR_600 : Nat := 600
/-- The Windows baud constant `CBR_1200`. -/
def CBR_1200 : Nat := 1200
/-- The Windows baud constant `CBR_2400`. -/
def CBR_2400 : Nat := 2400
/-- The Windows baud constant `CBR_4800`. -/
def CBR_4800 : Nat := 4800
/-- The Windows baud constant `CBR_9600`. -/
def CBR_9600 : Nat := 9600
/-- The Windows baud constant `CBR_14400`. -/
def CBR_14400 : Nat := 14400
/-- The Windows baud constant `CBR_19200`. -/
def CBR_19200 : Nat := 19200
/-- The Windows baud constant `CBR_38400`. -/
def CBR_38400 : Nat := 38400
/-- The Windows baud constant `CBR_56000`. -/
def CBR_56000 : Nat := 56000
/-- The Windows baud constant `CBR_57600`. -/
def CBR_57600 : Nat := 57600
/-- The Windows baud constant `CBR_115200`. -/
def CBR_115200 : Nat := 115200
/-- The Windows baud constant `CBR_128000`. -/
def CBR_128000 : Nat := 128000
/-- The Windows baud constant `CBR_256000`. -/
def CBR_256000 : Nat := 256000

/-- Modelled from the spec: the numeric value of a `ParityType` enumerator, which
`setParity` stores through `(unsigned char)parity`; the enumerators count from zero
in the order None, Odd, Even, Mark, Space. -/
def ParityType.toUChar : ParityType → Nat
  | .PAR_NONE => 0
  | .PAR_ODD => 1
  | .PAR_EVEN => 2
  | .PAR_MARK => 3
  | .PAR_SPACE => 4

/-- The function `QextSerialPortPrivate::setFlowControl`. -/
def setFlowControl (flow : FlowType) (s : Port) : Port × List Effect :=
  let s1 : Port :=
    if s.Settings.FlowControl ≠ flow then
      { s with Settings := { s.Settings with FlowControl := flow } }
    else s
  if s1.isOpen then
    match flow with
    | .FLOW_OFF =>
      let s2 : Port := { s1 with dcb := { s1.dcb with
        fOutxCtsFlow := false, fRtsControl := RTS_CONTROL_DISABLE,
        fInX := false, fOutX := false } }
      (s2, [.SetCommConfig s2.Win_Handle s2.dcb])
    | .FLOW_XONXOFF =>
      let s2 : Port := { s1 with dcb := { s1.dcb with
        fOutxCtsFlow := false, fRtsControl := RTS_CONTROL_DISABLE,
        fInX := true, fOutX := true } }
      (s2, [.SetCommConfig s2.Win_Handle s2.dcb])
    | .FLOW_HARDWARE =>
      let s2 : Port := { s1 with dcb := { s1.dcb with
        fOutxCtsFlow := true, fRtsControl := RTS_CONTROL_HANDSHAKE,
        fInX := false, fOutX := false } }
      (s2, [.SetCommConfig s2.Win_Handle s2.dcb])
  else (s1, [])

/-- The function `QextSerialPortPrivate::setParity`. -/
def setParity (parity : ParityType) (s : Port) : Port × List Effect :=
  let s1 : Port :=
    if s.Settings.Parity ≠ parity then
      { s with Settings := { s.Settings with Parity := parity } }
    else s
  if s1.isOpen then
    let s2 : Port := { s1 with dcb := { s1.dcb with Parity := parity.toUChar } }
    match parity with
    | .PAR_SPACE =>
      let w : List Effect :=
        if s2.Settings.DataBits = .DATA_8 then
          [.TTY_PORTABILITY_WARNING "QextSerialPort Portability Warning: Space parity with 8 data bits is not supported by POSIX systems."]
        else []
      let s3 : Port := { s2 with dcb := { s2.dcb with fParity := true } }
      (s3, w ++ [.SetCommConfig s3.Win_Handle s3.dcb])
    | .PAR_MARK =>
      let s3 : Port := { s2 with dcb := { s2.dcb with fParity := true } }
      (s3, [.TTY_PORTABILITY_WARNING "QextSerialPort Portability Warning:  Mark parity is not supported by POSIX systems",
            .SetCommConfig s3.Win_Handle s3.dcb])
    | .PAR_NONE =>
      let s3 : Port := { s2 with dcb := { s2.dcb with fParity := false } }
      (s3, [.SetCommConfig s3.Win_Handle s3.dcb])
    | .PAR_EVEN =>
      let s3 : Port := { s2 with dcb := { s2.dcb with fParity := true } }
      (s3, [.SetCommConfig s3.Win_Handle s3.dcb])
    | .PAR_ODD =>
      let s3 : Port := { s2 with dcb := { s2.dcb with fParity := true } }
      (s3, [.SetCommConfig s3.Win_Handle s3.dcb])
  else (s1, [])

/-- The function `QextSerialPortPrivate::setDataBits`. -/
def setDataBits (dataBits : DataBitsType) (s : Port) : Port × List Effect :=
  let s1 : Port :=
    if s.Settings.DataBits ≠ dataBits then
      if (s.Settings.StopBits = .STOP_2 ∧ dataBits = .DATA_5) ∨
          (s.Settings.StopBits = .STOP_1_5 ∧ dataBits ≠ .DATA_5) then s
      else { s with Settings := { s.Settings with DataBits := dataBits } }
    else s
  if s1.isOpen then
    match dataBits with
    | .DATA_5 =>
      if s1.Settings.StopBits = .STOP_2 then
        (s1, [.TTY_WARNING "QextSerialPort: 5 Data bits cannot be used with 2 stop bits."])
      else
        let s2 : Port := { s1 with dcb := { s1.dcb with ByteSize := 5 } }
        (s2, [.SetCommConfig s2.Win_Handle s2.dcb])
    | .DATA_6 =>
      if s1.Settings.StopBits = .STOP_1_5 then
        (s1, [.TTY_WARNING "QextSerialPort: 6 Data bits cannot be used with 1.5 stop bits."])
      else
        let s2 : Port := { s1 with dcb := { s1.dcb with ByteSize := 6 } }
        (s2, [.SetCommConfig s2.Win_Handle s2.dcb])
    | .DATA_7 =>
      if s1.Settings.StopBits = .STOP_1_5 then
        (s1, [.TTY_WARNING "QextSerialPort: 7 Data bits cannot be used with 1.5 stop bits."])
      else
        let s2 : Port := { s1 with dcb := { s1.dcb with ByteSize := 7 } }
        (s2, [.SetCommConfig s2.Win_Handle s2.dcb])
    | .DATA_8 =>
      if s1.Settings.StopBits = .STOP_1_5 then
        (s1, [.TTY_WARNING "QextSerialPort: 8 Data bits cannot be used with 1.5 stop bits."])
      else
        let s2 : Port := { s1 with dcb := { s1.dcb with ByteSize := 8 } }
        (s2, [.SetCommConfig s2.Win_Handle s2.dcb])
  else (s1, [])

/-- The function `QextSerialPortPrivate::setStopBits`. -/
def setStopBits (stopBits : StopBitsType) (s : Port) : Port × List Effect :=
  let s1 : Port :=
    if s.Settings.StopBits ≠ stopBits then
      if (s.Settings.DataBits = .DATA_5 ∧ stopBits = .STOP_2) ∨
          (stopBits = .STOP_1_5 ∧ s.Settings.DataBits ≠ .DATA_5) then s
      else { s with Settings := { s.Settings with StopBits := stopBits } }
    else s
  if s1.isOpen then
    match stopBits with
    | .STOP_1 =>
      let s2 : Port := { s1 with dcb := { s1.dcb with StopBits := ONESTOPBIT } }
      (s2, [.SetCommConfig s2.Win_Handle s2.dcb])
    | .STOP_1_5 =>
      let w : Effect := .TTY_PORTABILITY_WARNING "QextSerialPort Portability Warning: 1.5 stop bit operation is not supported by POSIX."
      if s1.Settings.DataBits ≠ .DATA_5 then
        (s1, [w, .TTY_WARNING "QextSerialPort: 1.5 stop bits can only be used with 5 data bits"])
      else
        let s2 : Port := { s1 with dcb := { s1.dcb with StopBits := ONE5STOPBITS } }
        (s2, [w, .SetCommConfig s2.Win_Handle s2.dcb])
    | .STOP_2 =>
      if s1.Settings.DataBits = .DATA_5 then
        (s1, [.TTY_WARNING "QextSerialPort: 2 stop bits cannot be used with 5 data bits"])
      else
        let s2 : Port := { s1 with dcb := { s1.dcb with StopBits := TWOSTOPBITS } }
        (s2, [.SetCommConfig s2.Win_Handle s2.dcb])
  else (s1, [])

/-- The function `QextSerialPortPrivate::setBaudRate`. The `default:` label of the
first `switch` is written out as the rates it stands for; the second `switch` gives,
for each rate, the warning it prints and the value it writes to `dcb.BaudRate`. -/
def setBaudRate (baudRate : BaudRateType) (s : Port) : Port × List Effect :=
  let s1 : Port :=
    if s.Settings.BaudRate ≠ baudRate then
      match baudRate with
      | .BAUD50 | .BAUD75 | .BAUD134 | .BAUD150 | .BAUD200 =>
        { s with Settings := { s.Settings with BaudRate := .BAUD110 } }
      | .BAUD1800 =>
        { s with Settings := { s.Settings with BaudRate := .BAUD1200 } }
      | .BAUD76800 =>
        { s with Settings := { s.Settings with BaudRate := .BAUD57600 } }
      | .BAUD110 | .BAUD300 | .BAUD600 | .BAUD1200 | .BAUD2400 | .BAUD4800 | .BAUD9600
      | .BAUD14400 | .BAUD19200 | .BAUD38400 | .BAUD56000 | .BAUD57600 | .BAUD115200
      | .BAUD128000 | .BAUD256000 =>
        { s with Settings := { s.Settings with BaudRate := baudRate } }
    else s
  if s1.isOpen then
    let r : List Effect × Nat :=
      match baudRate with
      | .BAUD50 =>
        ([.TTY_WARNING "QextSerialPort: Windows does not support 50 baud operation.  Switching to 110 baud."], CBR_110)
      | .BAUD75 =>
        ([.TTY_WARNING "QextSerialPort: Windows does not support 75 baud operation.  Switching to 110 baud."], CBR_110)
      | .BAUD110 => ([], CBR_110)
      | .BAUD134 =>
        ([.TTY_WARNING "QextSerialPort: Windows does not support 134.5 baud operation.  Switching to 110 baud."], CBR_110)
      | .BAUD150 =>
        ([.TTY_WARNING "QextSerialPort: Windows does not support 150 baud operation.  Switching to 110 baud."], CBR_110)
      | .BAUD200 =>
        ([.TTY_WARNING "QextSerialPort: Windows does not support 200 baud operation.  Switching to 110 baud."], CBR_110)
      | .BAUD300 => ([], CBR_300)
      | .BAUD600 => ([], CBR_600)
      | .BAUD1200 => ([], CBR_1200)
      | .BAUD1800 =>
        ([.TTY_WARNING "QextSerialPort: Windows does not support 1800 baud operation.  Switching to 1200 baud."], CBR_1200)
      | .BAUD2400 => ([], CBR_2400)
      | .BAUD4800 => ([], CBR_4800)
      | .BAUD9600 => ([], CBR_9600)
      | .BAUD14400 =>
        ([.TTY_PORTABILITY_WARNING "QextSerialPort Portability Warning: POSIX does not support 14400 baud operation."], CBR_14400)
      | .BAUD19200 => ([], CBR_19200)
      | .BAUD38400 => ([], CBR_38400)
      | .BAUD56000 =>
        ([.TTY_PORTABILITY_WARNING "QextSerialPort Portability Warning: POSIX does not support 56000 baud operation."], CBR_56000)
      | .BAUD57600 => ([], CBR_57600)
      | .BAUD76800 =>
        ([.TTY_WARNING "QextSerialPort: Windows does not support 76800 baud operation.  Switching to 57600 baud."], CBR_57600)
      | .BAUD115200 => ([], CBR_115200)
      | .BAUD128000 =>
        ([.TTY_PORTABILITY_WARNING "QextSerialPort Portability Warning: POSIX does not support 128000 baud operation."], CBR_128000)
      | .BAUD256000 =>
        ([.TTY_PORTABILITY_WARNING "QextSerialPort Portability Warning: POSIX does not support 256000 baud operation."], CBR_256000)
    let s2 : Port := { s1 with dcb := { s1.dcb with BaudRate := r.2 } }
    (s2, r.1 ++ [.SetCommConfig s2.Win_Handle s2.dcb])
  else (s1, [])

/-- The function `QextSerialPortPrivate::setTimeout`; `millisec` is a C `long`, and
each field of `Win_CommTimeouts` receives it converted to `DWORD`. -/
def setTimeout (millisec : Int) (s : Port) : Port × List Effect :=
  let s1 : Port := { s with Settings := { s.Settings with Timeout_Millisec := millisec } }
  let t1 : COMMTIMEOUTS :=
    if millisec = -1 then
      { s1.Win_CommTimeouts with
        ReadIntervalTimeout := MAXDWORD, ReadTotalTimeoutConstant := 0 }
    else
      { s1.Win_CommTimeouts with
        ReadIntervalTimeout := toDWORD millisec,
        ReadTotalTimeoutConstant := toDWORD millisec }
  let t2 : COMMTIMEOUTS :=
    { t1 with
      ReadTotalTimeoutMultiplier := 0,
      WriteTotalTimeoutMultiplier := toDWORD millisec,
      WriteTotalTimeoutConstant := 0 }
  let s2 : Port := { s1 with Win_CommTimeouts := t2 }
  if s2.queryMode ≠ .EventDriven then
    (s2, [.SetCommTimeouts s2.Win_Handle s2.Win_CommTimeouts])
  else (s2, [])

/-! ## Queries, reading and writing -/

/-- What `ReadFile`, `WriteFile` or `GetOverlappedResult` answers: its `BOOL` result,
the `DWORD` it leaves in the byte-count out parameter, and what `GetLastError()`
answers after it. -/
structure IoAnswer where
  success : Bool
  numBytes : Nat
  lastError : Nat
  deriving DecidableEq, Repr

/-- The function `QextSerialPort::bytesAvailable`. `clearCommError` is the answer of
`ClearCommError`: `none` when it fails, `some cbInQue` with the receive-queue count
of the `COMSTAT` record when it succeeds; `baseBytesAvailable` is the answer of
`QIODevice::bytesAvailable()`. The member function is `const`: the session it
returns is the one it was given. -/
def bytesAvailable (clearCommError : Option Nat) (baseBytesAvailable : Int) (s : Port) :
    Int × Port × List Effect :=
  if s.isOpen then
    match clearCommError with
    | some cbInQue =>
      (toQint64 (((cbInQue % 2 ^ 32 : Nat) : Int) + baseBytesAvailable), s,
        [.ClearCommError s.Win_Handle])
    | none => (toQint64 (-1), s, [.ClearCommError s.Win_Handle])
  else (0, s, [])

/-- The function `QextSerialPort::readData`, without the contents of the buffer.
`readFile` is the answer of `ReadFile`, `overlapped` the answer of the blocking
`GetOverlappedResult` (asked only when the read is pending). The local `retVal` is a
`DWORD`; the result is `(qint64)retVal`. -/
def readData (readFile overlapped : IoAnswer) (maxSize : Int) (s : Port) :
    Int × Port × List Effect :=
  if s.queryMode = .EventDriven then
    let retVal : Nat := readFile.numBytes % 2 ^ 32
    if ¬ readFile.success then
      if readFile.lastError = ERROR_IO_PENDING then
        let retVal : Nat := overlapped.numBytes % 2 ^ 32
        (toQint64 retVal, s,
          [.ReadFile s.Win_Handle (toDWORD maxSize), .GetOverlappedResult s.Win_Handle])
      else
        let s1 : Port := { s with lastErr := .E_READ_FAILED }
        let retVal : Nat := toDWORD (-1)
        (toQint64 retVal, s1, [.ReadFile s.Win_Handle (toDWORD maxSize)])
    else (toQint64 retVal, s, [.ReadFile s.Win_Handle (toDWORD maxSize)])
  else
    let retVal : Nat := readFile.numBytes % 2 ^ 32
    if ¬ readFile.success then
      let s1 : Port := { s with lastErr := .E_READ_FAILED }
      let retVal : Nat := toDWORD (-1)
      (toQint64 retVal, s1, [.ReadFile s.Win_Handle (toDWORD maxSize)])
    else (toQint64 retVal, s, [.ReadFile s.Win_Handle (toDWORD maxSize)])

/-- What the operating system answers during one call of `writeData`: the record
that `new OVERLAPPED` and `CreateEvent` produce, the answer of `WriteFile`, and the
results of `CancelIo` and `CloseHandle` on the failure path. -/
structure WriteAnswers where
  newOverlapWrite : OVERLAPPED
  writeFile : IoAnswer
  cancelIo : Bool
  closeHandle : Bool
  deriving DecidableEq, Repr

/-- The function `QextSerialPort::writeData`, without the contents of the buffer.
The local `retVal` is a `DWORD`; the result is `(qint64)retVal`. -/
def writeData (os : WriteAnswers) (maxSize : Int) (s : Port) :
    Int × Port × List Effect :=
  let retVal : Nat := os.writeFile.numBytes % 2 ^ 32
  if s.queryMode = .EventDriven then
    let o : OVERLAPPED := os.newOverlapWrite
    if os.writeFile.success then
      (toQint64 retVal, s,
        [.WriteFile s.Win_Handle (toDWORD maxSize), .CloseHandle o.hEvent,
         .deleteOverlapped o])
    else if os.writeFile.lastError = ERROR_IO_PENDING then
      let s1 : Port :=
        { s with
          _bytesToWrite := toQint64 (s._bytesToWrite + maxSize),
          pendingWrites := s.pendingWrites ++ [o] }
      (toQint64 retVal, s1, [.WriteFile s.Win_Handle (toDWORD maxSize)])
    else
      let s1 : Port := { s with lastErr := .E_WRITE_FAILED }
      let retVal : Nat := toDWORD (-1)
      let w1 : List Effect :=
        if ¬ os.cancelIo then [.qDebug "serialport: couldn't cancel IO"] else []
      let w2 : List Effect :=
        if ¬ os.closeHandle then [.qDebug "serialport: couldn't close OVERLAPPED handle"]
        else []
      (toQint64 retVal, s1,
        [.WriteFile s.Win_Handle (toDWORD maxSize), .qDebug "serialport write error:",
         .CancelIo o.hEvent] ++ w1 ++ [.CloseHandle o.hEvent] ++ w2 ++
        [.deleteOverlapped o])
  else if ¬ os.writeFile.success then
    let s1 : Port := { s with lastErr := .E_WRITE_FAILED }
    let retVal : Nat := toDWORD (-1)
    (toQint64 retVal, s1, [.WriteFile s.Win_Handle (toDWORD maxSize)])
  else (toQint64 retVal, s, [.WriteFile s.Win_Handle (toDWORD maxSize)])

/-! ## Closing -/

/-- The function `QextSerialPortPrivate::flush_sys`. -/
def flush_sys (s : Port) : Port × List Effect :=
  (s, [.FlushFileBuffers s.Win_Handle])

/-- What the operating system answers during one call of `close_sys`: the results of
`FlushFileBuffers`, of `CancelIo`, of `CloseHandle` on the device handle, and of
`CloseHandle` on the event of each pending write. The code reads only the third. -/
structure CloseAnswers where
  flushFileBuffers : Bool
  cancelIo : Bool
  closeHandle : Bool
  closeEvent : OVERLAPPED → Bool

/-- The loop `foreach(OVERLAPPED* o, pendingWrites)` of `close_sys`: for each entry,
`CloseHandle(o->hEvent)` and `delete o`. -/
def releasePendingWrites : List OVERLAPPED → List Effect
  | [] => []
  | o :: rest => .CloseHandle o.hEvent :: .deleteOverlapped o :: releasePendingWrites rest

/-- The function `QextSerialPortPrivate::close_sys`. `QIODevice::close()` clears the
open flag. -/
def close_sys (os : CloseAnswers) (s : Port) : Port × List Effect :=
  let e1 : List Effect := (flush_sys s).2
  let s1 : Port := { s with isOpen := false }
  let e2 : List Effect := [.CancelIo s1.Win_Handle, .CloseHandle s1.Win_Handle]
  let s2 : Port :=
    if os.closeHandle then { s1 with Win_Handle := INVALID_HANDLE_VALUE } else s1
  let r3 : Port × List Effect :=
    match s2.winEventNotifier with
    | some n => ({ s2 with winEventNotifier := none }, [.deleteLaterNotifier n])
    | none => (s2, [])
  let s4 : Port := { r3.1 with _bytesToWrite := 0 }
  let e4 : List Effect := releasePendingWrites s4.pendingWrites
  let s5 : Port := { s4 with pendingWrites := [] }
  (s5, e1 ++ e2 ++ r3.2 ++ e4)

/-! ## Line status -/

/-- The Windows modem-status flag `MS_CTS_ON`. -/
def MS_CTS_ON : Nat := 0x0010
/-- The Windows modem-status flag `MS_DSR_ON`. -/
def MS_DSR_ON : Nat := 0x0020
/-- The Windows modem-status flag `MS_RING_ON`. -/
def MS_RING_ON : Nat := 0x0040
/-- The Windows modem-status flag `MS_RLSD_ON` (carrier detect). -/
def MS_RLSD_ON : Nat := 0x0080

/-- Modelled from the spec: the line-status bit `LS_CTS` of `qextserialport.h`; the
specification makes LineStatus a bitset of CTS, DSR, RI and DCD, one bit each. -/
def LS_CTS : Nat := 0x01
/-- Modelled from the spec: the line-status bit `LS_DSR` of `qextserialport.h`. -/
def LS_DSR : Nat := 0x02
/-- Modelled from the spec: the line-status bit `LS_DCD` of `qextserialport.h`. -/
def LS_DCD : Nat := 0x04
/-- Modelled from the spec: the line-status bit `LS_RI` of `qextserialport.h`. -/
def LS_RI : Nat := 0x08

/-- The function `QextSerialPortPrivate::lineStatus_sys`. `getCommModemStatus` is the
answer of `GetCommModemStatus`: `some w` when it stores the status word `w` in
`Temp`, `none` when it fails and `Temp` keeps its initial value 0. -/
def lineStatus_sys (getCommModemStatus : Option Nat) (s : Port) :
    Nat × Port × List Effect :=
  let Status : Nat := 0
  let Temp : Nat := getCommModemStatus.getD 0
  let Status : Nat := if Temp &&& MS_CTS_ON ≠ 0 then Status ||| LS_CTS else Status
  let Status : Nat := if Temp &&& MS_DSR_ON ≠ 0 then Status ||| LS_DSR else Status
  let Status : Nat := if Temp &&& MS_RING_ON ≠ 0 then Status ||| LS_RI else Status
  let Status : Nat := if Temp &&& MS_RLSD_ON ≠ 0 then Status ||| LS_DCD else Status
  (Status, s, [.GetCommModemStatus s.Win_Handle])

/-- Modelled from the spec: the public member `lineStatus()` that `onWinEvent` calls,
absent from the source file: LineStatus is derived on demand from the device
modem-status query and is not cached, which is what `lineStatus_sys` does. -/
def lineStatus (getCommModemStatus : Option Nat) (s : Port) : Nat × Port × List Effect :=
  lineStatus_sys getCommModemStatus s

/-! ## The notification callback -/

/-- The Windows event flag `EV_RXCHAR`. -/
def EV_RXCHAR : Nat := 0x0001
/-- The Windows event flag `EV_TXEMPTY`. -/
def EV_TXEMPTY : Nat := 0x0004
/-- The Windows event flag `EV_DSR`. -/
def EV_DSR : Nat := 0x0010

/-- What the outside answers during one call of `onWinEvent`: whether `sender()` is
the port itself, the answers used by `bytesAvailable()`, the answer of the
non-blocking `GetOverlappedResult` for each pending write, the answer of
`GetCommModemStatus`, and the mask that the re-armed `WaitCommEvent` stores in
`eventMask` for the next notification. -/
structure EventAnswers where
  senderIsThis : Bool
  clearCommError : Option Nat
  baseBytesAvailable : Int
  overlappedResult : OVERLAPPED → IoAnswer
  getCommModemStatus : Option Nat
  waitCommEvent : Nat

/-- The first loop of the `EV_TXEMPTY` branch of `onWinEvent`, over the pending
writes in order, with the locals `totalBytesWritten` and `overlapsToDelete` and the
effects so far as accumulators. -/
def collectCompleted (h : HANDLE) (answer : OVERLAPPED → IoAnswer) :
    List OVERLAPPED → Int → List OVERLAPPED → List Effect →
      Int × List OVERLAPPED × List Effect
  | [], totalBytesWritten, overlapsToDelete, eff =>
    (totalBytesWritten, overlapsToDelete, eff)
  | o :: rest, totalBytesWritten, overlapsToDelete, eff =>
    if (answer o).success then
      collectCompleted h answer rest
        (toQint64 (totalBytesWritten + (((answer o).numBytes % 2 ^ 32 : Nat) : Int)))
        (overlapsToDelete ++ [o]) (eff ++ [.GetOverlappedResult h])
    else if (answer o).lastError ≠ ERROR_IO_INCOMPLETE then
      collectCompleted h answer rest totalBytesWritten (overlapsToDelete ++ [o])
        (eff ++ [.GetOverlappedResult h, .qWarning "CommEvent overlapped write error:"])
    else
      collectCompleted h answer rest totalBytesWritten overlapsToDelete
        (eff ++ [.GetOverlappedResult h])

/-- The second loop of the `EV_TXEMPTY` branch of `onWinEvent`, over
`overlapsToDelete`: `takeAt(indexOf(o))` removes the first entry equal to `o` from
the pending writes, then come `CloseHandle` on its event and `delete`. -/
def releaseCompleted : List OVERLAPPED → List OVERLAPPED → List OVERLAPPED × List Effect
  | [], pendingWrites => (pendingWrites, [])
  | o :: rest, pendingWrites =>
    let r := releaseCompleted rest (pendingWrites.erase o)
    (r.1, .CloseHandle o.hEvent :: .deleteOverlapped o :: r.2)

/-- The slot `QextSerialPort::onWinEvent`. -/
def onWinEvent (h : HANDLE) (os : EventAnswers) (s : Port) : Port × List Effect :=
  let r : Port × List Effect :=
    if h = s.overlap_hEvent then
      let e1 : List Effect :=
        if s.eventMask &&& EV_RXCHAR ≠ 0 then
          if ¬ os.senderIsThis then
            let b := bytesAvailable os.clearCommError os.baseBytesAvailable s
            if b.1 > 0 then b.2.2 ++ [.readyRead] else b.2.2
          else []
        else []
      let r2 : Port × List Effect :=
        if s.eventMask &&& EV_TXEMPTY ≠ 0 then
          let c := collectCompleted s.Win_Handle os.overlappedResult s.pendingWrites 0 [] []
          let r : Port × List Effect :=
            if ¬ os.senderIsThis ∧ c.1 > 0 then
              ({ s with _bytesToWrite := 0 }, [.bytesWritten c.1])
            else (s, [])
          let d := releaseCompleted c.2.1 r.1.pendingWrites
          ({ r.1 with pendingWrites := d.1 }, c.2.2 ++ r.2 ++ d.2)
        else (s, [])
      let e3 : List Effect :=
        if r2.1.eventMask &&& EV_DSR ≠ 0 then
          let l := lineStatus os.getCommModemStatus r2.1
          if l.1 &&& LS_DSR ≠ 0 then l.2.2 ++ [.dsrChanged true]
          else l.2.2 ++ [.dsrChanged false]
        else []
      (r2.1, e1 ++ r2.2 ++ e3)
    else (s, [])
  ({ r.1 with eventMask := os.waitCommEvent }, r.2 ++ [.WaitCommEvent r.1.Win_Handle])

/-! ## Opening -/

/-- The open mode of `QIODevice`, a set of flags. -/
abbrev OpenMode := Nat

/-- The Qt constant `QIODevice::NotOpen`. -/
def NotOpen : OpenMode := 0

/-- What the operating system answers during one call of `open_sys`: the handle
returned by `CreateFileA`, the device control block that `GetCommConfig` and then
`GetCommState` store in `Win_CommConfig.dcb` (`none` when the call fails and stores
nothing), the result of `SetCommMask`, and the mask that `WaitCommEvent` stores in
`eventMask` for the first notification. -/
structure OpenAnswers where
  createFile : HANDLE
  getCommConfig : Option DCB
  getCommState : Option DCB
  setCommMask : Bool
  waitCommEvent : Nat
  deriving DecidableEq, Repr

/-- The function `QextSerialPortPrivate::open_sys`. `QIODevice::open(mode)` stores
the open mode, so that `isOpen()` holds afterwards when `mode` is not `NotOpen`. -/
def open_sys (os : OpenAnswers) (mode : OpenMode) (s : Port) : Bool × Port × List Effect :=
  let s0 : Port := { s with Win_Handle := os.createFile }
  if s0.Win_Handle ≠ INVALID_HANDLE_VALUE then
    let s1 : Port := { s0 with isOpen := decide (mode ≠ NotOpen) }
    let s2 : Port :=
      { s1 with dcb := os.getCommState.getD (os.getCommConfig.getD s1.dcb) }
    let s3 : Port := { s2 with dcb := { s2.dcb with
      fBinary := true, fInX := false, fOutX := false, fAbortOnError := false,
      fNull := false } }
    let r4 := setBaudRate s3.Settings.BaudRate s3
    let r5 := setDataBits r4.1.Settings.DataBits r4.1
    let r6 := setStopBits r5.1.Settings.StopBits r5.1
    let r7 := setParity r6.1.Settings.Parity r6.1
    let r8 := setFlowControl r7.1.Settings.FlowControl r7.1
    let r9 := setTimeout r8.1.Settings.Timeout_Millisec r8.1
    let s9 : Port := r9.1
    let e9 : List Effect :=
      [.CreateFileA, .GetCommConfig s9.Win_Handle, .GetCommState s9.Win_Handle]
        ++ r4.2 ++ r5.2 ++ r6.2 ++ r7.2 ++ r8.2 ++ r9.2
        ++ [.SetCommConfig s9.Win_Handle s9.dcb]
    if s9.queryMode = .EventDriven then
      let s10 : Port := { s9 with Win_CommTimeouts :=
        { ReadIntervalTimeout := MAXDWORD, ReadTotalTimeoutMultiplier := 0,
          ReadTotalTimeoutConstant := 0, WriteTotalTimeoutMultiplier := 0,
          WriteTotalTimeoutConstant := 0 } }
      let e10 : List Effect :=
        e9 ++ [.SetCommTimeouts s10.Win_Handle s10.Win_CommTimeouts,
               .SetCommMask s10.Win_Handle (EV_TXEMPTY ||| EV_RXCHAR ||| EV_DSR)]
      if ¬ os.setCommMask then
        (false, s10, e10 ++ [.qWarning "failed to set Comm Mask. Error code:"])
      else
        let s11 : Port :=
          { s10 with
            winEventNotifier := some s10.overlap_hEvent,
            eventMask := os.waitCommEvent }
        (true, s11,
          e10 ++ [.newWinEventNotifier s10.overlap_hEvent, .WaitCommEvent s10.Win_Handle])
    else (true, s9, e9)
  else (false, s0, [.CreateFileA])

/-! ## Port names -/

/-- The device prefix that `fullPortNameWin` prepends: backslash, backslash, dot,
backslash. -/
def devicePrefix : List Char := "\\\\.\\".toList

/-- The Qt function `QString::toInt()` on a capture of the class `\d`: the
conversion is done in the C locale, so it succeeds when every character is one of
the digits 0 to 9 and the value fits an `int`, and it returns 0 when it fails. -/
def toInt (digits : List Char) : Int :=
  if digits.all Char.isDigit then
    let value : Nat := digits.foldl (fun acc c => 10 * acc + (c.toNat - 48)) 0
    if value ≤ 2147483647 then (value : Int) else 0
  else 0

/-- The function `QextSerialPort::fullPortNameWin`, on names as lists of characters.
`isDigitQt` is the character class `\d` of `QRegExp` (the characters for which
`QChar::isDigit()` holds). The expression `^COM(\d+)` matches when the name starts
with `COM` and at least one character of the class; the capture is the longest run
of such characters. -/
def fullPortNameWin (isDigitQt : Char → Bool) (name : List Char) : List Char :=
  match name with
  | 'C' :: 'O' :: 'M' :: rest =>
    let cap1 : List Char := rest.takeWhile isDigitQt
    if cap1 ≠ [] then
      let portnum : Int := toInt cap1
      if portnum > 9 then devicePrefix ++ name else name
    else name
  | _ => name

/-! ## Specification-side definitions for the configuration claims -/

/-- The cross-field invariant of the specification, on a pair of values:
(DataBits=5 ⇒ StopBits≠2) and (StopBits=1.5 ⇒ DataBits=5). -/
def compatible (d : DataBitsType) (t : StopBitsType) : Prop :=
  (d = .DATA_5 → t ≠ .STOP_2) ∧ (t = .STOP_1_5 → d = .DATA_5)

instance (d : DataBitsType) (t : StopBitsType) : Decidable (compatible d t) := by
  unfold compatible
  exact inferInstance

/-- The data-bits/stop-bits invariant of the specification on stored Settings. -/
def SettingsInvariant (S : PortSettings) : Prop :=
  compatible S.DataBits S.StopBits

instance (S : PortSettings) : Decidable (SettingsInvariant S) := by
  unfold SettingsInvariant
  exact inferInstance

/-- The quantization table `Q` of the specification: 50/75/134.5/150/200 → 110,
1800 → 1200, 76800 → 57600, every other rate to itself. -/
def Q : BaudRateType → BaudRateType
  | .BAUD50 => .BAUD110
  | .BAUD75 => .BAUD110
  | .BAUD134 => .BAUD110
  | .BAUD150 => .BAUD110
  | .BAUD200 => .BAUD110
  | .BAUD1800 => .BAUD1200
  | .BAUD76800 => .BAUD57600
  | b => b

/-- The seven rates the specification lists as not supported by the platform. -/
def unsupportedRates : List BaudRateType :=
  [.BAUD50, .BAUD75, .BAUD134, .BAUD150, .BAUD200, .BAUD1800, .BAUD76800]

/-- The native constant of a rate the platform supports (`BAUD110` ↦ `CBR_110`, ...,
`BAUD256000` ↦ `CBR_256000`); 0 for the seven rates without a native constant. -/
def nativeBaud : BaudRateType → Nat
  | .BAUD110 => CBR_110
  | .BAUD300 => CBR_300
  | .BAUD600 => CBR_600
  | .BAUD1200 => CBR_1200
  | .BAUD2400 => CBR_2400
  | .BAUD4800 => CBR_4800
  | .BAUD9600 => CBR_9600
  | .BAUD14400 => CBR_14400
  | .BAUD19200 => CBR_19200
  | .BAUD38400 => CBR_38400
  | .BAUD56000 => CBR_56000
  | .BAUD57600 => CBR_57600
  | .BAUD115200 => CBR_115200
  | .BAUD128000 => CBR_128000
  | .BAUD256000 => CBR_256000
  | .BAUD50 | .BAUD75 | .BAUD134 | .BAUD150 | .BAUD200 | .BAUD1800 | .BAUD76800 => 0

/-- The number of data bits a `DataBitsType` stands for. -/
def DataBitsType.bits : DataBitsType → Nat
  | .DATA_5 => 5
  | .DATA_6 => 6
  | .DATA_7 => 7
  | .DATA_8 => 8

/-- The native stop-bits code of a `StopBitsType`. -/
def StopBitsType.native : StopBitsType → Nat
  | .STOP_1 => ONESTOPBIT
  | .STOP_1_5 => ONE5STOPBITS
  | .STOP_2 => TWOSTOPBITS

/-- The translation of a `FlowType` to the flags `fOutxCtsFlow`, `fRtsControl`,
`fInX` and `fOutX` of the device control block, in this order. -/
def FlowType.native : FlowType → Bool × Nat × Bool × Bool
  | .FLOW_OFF => (false, RTS_CONTROL_DISABLE, false, false)
  | .FLOW_XONXOFF => (false, RTS_CONTROL_DISABLE, true, true)
  | .FLOW_HARDWARE => (true, RTS_CONTROL_HANDSHAKE, false, false)

/-- The nominal value of a rate in tenths of a baud (`BAUD134` is 134.5 baud). -/
def nominalDeciBaud : BaudRateType → Nat
  | .BAUD50 => 500
  | .BAUD75 => 750
  | .BAUD110 => 1100
  | .BAUD134 => 1345
  | .BAUD150 => 1500
  | .BAUD200 => 2000
  | .BAUD300 => 3000
  | .BAUD600 => 6000
  | .BAUD1200 => 12000
  | .BAUD1800 => 18000
  | .BAUD2400 => 24000
  | .BAUD4800 => 48000
  | .BAUD9600 => 96000
  | .BAUD14400 => 144000
  | .BAUD19200 => 192000
  | .BAUD38400 => 384000
  | .BAUD56000 => 560000
  | .BAUD57600 => 576000
  | .BAUD76800 => 768000
  | .BAUD115200 => 1152000
  | .BAUD128000 => 1280000
  | .BAUD256000 => 2560000

/-- Whether an effect is a call of the operating system on the device, as opposed to
a warning, a debug line or a signal. -/
def Effect.isDeviceCall : Effect → Bool
  | .TTY_WARNING _ => false
  | .TTY_PORTABILITY_WARNING _ => false
  | .qDebug _ => false
  | .qWarning _ => false
  | .readyRead => false
  | .bytesWritten _ => false
  | .dsrChanged _ => false
  | .deleteOverlapped _ => false
  | .deleteLaterNotifier _ => false
  | .newWinEventNotifier _ => false
  | _ => true

/-- Whether an effect is the signal `bytesWritten`. -/
def Effect.isBytesWritten : Effect → Bool
  | .bytesWritten _ => true
  | _ => false

/-- Whether an effect is a portability warning. -/
def Effect.isPortabilityWarning : Effect → Bool
  | .TTY_PORTABILITY_WARNING _ => true
  | _ => false

/-- Whether an effect reads received bytes from the device. -/
def Effect.isReadFile : Effect → Bool
  | .ReadFile _ _ => true
  | _ => false

/-- The completion query of a pending write answers "completed". -/
def completed (answer : OVERLAPPED → IoAnswer) (o : OVERLAPPED) : Bool :=
  (answer o).success

/-- The completion query of a pending write answers "still pending": it fails with
`ERROR_IO_INCOMPLETE`. -/
def stillPending (answer : OVERLAPPED → IoAnswer) (o : OVERLAPPED) : Bool :=
  !(answer o).success && decide ((answer o).lastError = ERROR_IO_INCOMPLETE)

/-- The sum of the byte counts (each a `DWORD`) of the writes whose completion query
answers "completed", over a list of pending writes. -/
def completedTotal (answer : OVERLAPPED → IoAnswer) : List OVERLAPPED → Int
  | [] => 0
  | o :: rest =>
    (if (answer o).success then (((answer o).numBytes % 2 ^ 32 : Nat) : Int) else 0)
      + completedTotal answer rest

/-- The priority order of the specification, highest priority first: each recognised
error bit with the `ErrorKind` it stands for
(Break > Framing > IoError > InvalidDescriptor > BufferOverrun > ReceiveParityError >
ReceiveOverflow > TransmitOverflow). -/
def errorPriority : List (Nat × ErrorKind) :=
  [(CE_BREAK, .E_BREAK_CONDITION), (CE_FRAME, .E_FRAMING_ERROR), (CE_IOE, .E_IO_ERROR),
   (CE_MODE, .E_INVALID_FD), (CE_OVERRUN, .E_BUFFER_OVERRUN),
   (CE_RXPARITY, .E_RECEIVE_PARITY_ERROR), (CE_RXOVER, .E_RECEIVE_OVERFLOW),
   (CE_TXFULL, .E_TRANSMIT_OVERFLOW)]

/-- A session used in the concrete examples: closed, polling, nothing pending. -/
def examplePort : Port :=
  { isOpen := false
    queryMode := .Polling
    Win_Handle := INVALID_HANDLE_VALUE
    Settings :=
      { BaudRate := .BAUD9600, DataBits := .DATA_8, Parity := .PAR_NONE,
        StopBits := .STOP_1, FlowControl := .FLOW_OFF, Timeout_Millisec := 500 }
    dcb :=
      { BaudRate := 0, ByteSize := 0, Parity := 0, StopBits := 0, fBinary := false,
        fParity := false, fOutxCtsFlow := false, fRtsControl := 0, fInX := false,
        fOutX := false, fAbortOnError := false, fNull := false }
    Win_CommTimeouts :=
      { ReadIntervalTimeout := 0, ReadTotalTimeoutMultiplier := 0,
        ReadTotalTimeoutConstant := 0, WriteTotalTimeoutMultiplier := 0,
        WriteTotalTimeoutConstant := 0 }
    lastErr := .E_NO_ERROR
    pendingWrites := []
    _bytesToWrite := 0
    overlap_hEvent := 7
    winEventNotifier := none
    eventMask := 0 }

/-- The example session after a successful open: same Settings, a valid handle. -/
def exampleOpenPort : Port :=
  { examplePort with isOpen := true, Win_Handle := 100 }

/-- The example session with the unsupported rate `BAUD50` stored in its Settings. -/
def exampleBaud50Port : Port :=
  { examplePort with Settings := { examplePort.Settings with BaudRate := .BAUD50 } }

/-- The example open session with 5 data bits and 1.5 stop bits stored. -/
def exampleFiveBitPort : Port :=
  { exampleOpenPort with
    Settings := { exampleOpenPort.Settings with DataBits := .DATA_5, StopBits := .STOP_1_5 } }

/-- An example event-driven session: open, two writes pending, notifier registered. -/
def exampleBusyPort : Port :=
  { exampleOpenPort with
    queryMode := .EventDriven
    pendingWrites := [{ addr := 4096, hEvent := 21 }, { addr := 8192, hEvent := 22 }]
    _bytesToWrite := 12
    winEventNotifier := some 7 }

/-- Operating-system answers for `close_sys` in which every call succeeds. -/
def closeAllSucceed : CloseAnswers :=
  { flushFileBuffers := true, cancelIo := true, closeHandle := true,
    closeEvent := fun _ => true }

/-- Operating-system answers for `close_sys` in which `CloseHandle` on the device
handle fails. -/
def closeHandleFails : CloseAnswers :=
  { flushFileBuffers := true, cancelIo := true, closeHandle := false,
    closeEvent := fun _ => true }

/-- An answer of `ReadFile` or `WriteFile` reporting a failure that is not
"I/O pending" (error code 5). -/
def ioFailed : IoAnswer := { success := false, numBytes := 0, lastError := 5 }

/-- Operating-system answers for `writeData` in which `WriteFile` fails. -/
def writeFails : WriteAnswers :=
  { newOverlapWrite := { addr := 12288, hEvent := 23 }, writeFile := ioFailed,
    cancelIo := true, closeHandle := true }

/-- Operating-system answers for `writeData` in which `WriteFile` reports that the
write is pending. -/
def writePending : WriteAnswers :=
  { newOverlapWrite := { addr := 12288, hEvent := 23 },
    writeFile := { success := false, numBytes := 0, lastError := ERROR_IO_PENDING },
    cancelIo := true, closeHandle := true }

/-- Answers for `onWinEvent` sent by the notifier, in which every pending write has
completed with `n` bytes. -/
def allCompleted (n : Nat) : EventAnswers :=
  { senderIsThis := false, clearCommError := some 0, baseBytesAvailable := 0,
    overlappedResult := fun _ => { success := true, numBytes := n, lastError := 0 },
    getCommModemStatus := some 0, waitCommEvent := 0 }

/-- Answers for `onWinEvent` sent by the notifier, in which the pending write at
address 4096 has completed with 5 bytes and every other one is still pending. -/
def firstCompleted : EventAnswers :=
  { senderIsThis := false, clearCommError := some 0, baseBytesAvailable := 0,
    overlappedResult := fun o =>
      if o.addr = 4096 then { success := true, numBytes := 5, lastError := 0 }
      else { success := false, numBytes := 0, lastError := ERROR_IO_INCOMPLETE },
    getCommModemStatus := some 0, waitCommEvent := 0 }

/-- The busy example session at a notification of "transmit queue empty". -/
def exampleTxEmptyPort : Port :=
  { exampleBusyPort with eventMask := EV_TXEMPTY }

/-- Operating-system answers for `open_sys` in which every call succeeds; the device
reports an all-zero control block. -/
def openSucceeds : OpenAnswers :=
  { createFile := 100, getCommConfig := some examplePort.dcb,
    getCommState := some examplePort.dcb, setCommMask := true, waitCommEvent := 0 }

/-- The open example session with the unsupported rate `BAUD50` stored in its
Settings. -/
def exampleOpenBaud50Port : Port :=
  { exampleOpenPort with Settings := { exampleOpenPort.Settings with BaudRate := .BAUD50 } }

/-- The open example session at a notification of "character received". -/
def exampleRxPort : Port :=
  { exampleOpenPort with queryMode := .EventDriven, eventMask := EV_RXCHAR }

/-- Answers for `onWinEvent` sent by the notifier, with `n` bytes in the receive
queue of the device. -/
def received (n : Nat) : EventAnswers :=
  { senderIsThis := false, clearCommError := some n, baseBytesAvailable := 0,
    overlappedResult := fun _ => { success := true, numBytes := 0, lastError := 0 },
    getCommModemStatus := some 0, waitCommEvent := 0 }

/-! ## Theorems -/

/-- C1: `translateError` is a priority decoder. For every error bitmask and every
session, an entry of the priority table whose bit is set while the bit of every
entry before it is clear decides `lastErr` (whatever other bits are set); when the
bit of no entry is set the session, `lastErr` included, is unchanged; no other field
ever changes; and `CE_OVERRUN | CE_RXPARITY` gives `E_BUFFER_OVERRUN`. -/
theorem translateError_priority (error : Nat) (s : Port) :
    (∀ (i m : Nat) (k : ErrorKind), errorPriority[i]? = some (m, k) → error &&& m ≠ 0 →
      (∀ (j m' : Nat) (k' : ErrorKind), j < i → errorPriority[j]? = some (m', k') → error &&& m' = 0) →
      (translateError error s).lastErr = k)
    ∧ ((∀ p ∈ errorPriority, error &&& p.1 = 0) → translateError error s = s)
    ∧ translateError error s = { s with lastErr := (translateError error s).lastErr }
    ∧ (translateError (CE_OVERRUN ||| CE_RXPARITY) s).lastErr = .E_BUFFER_OVERRUN := by
  refine ⟨?_, ?_, ?_, ?_⟩
  · intro i m k hi hm hlow
    have hlt : i < 8 := by
      by_contra hge
      have : errorPriority[i]? = none := by
        apply List.getElem?_eq_none
        simp only [errorPriority, List.length_cons, List.length_nil]
        omega
      rw [this] at hi
      cases hi
    have h0 := hlow 0
    have h1 := hlow 1
    have h2 := hlow 2
    have h3 := hlow 3
    have h4 := hlow 4
    have h5 := hlow 5
    have h6 := hlow 6
    interval_cases i <;>
      simp [errorPriority] at hi h0 h1 h2 h3 h4 h5 h6 <;>
      obtain ⟨rfl, rfl⟩ := hi <;>
      simp_all [translateError]
  · intro h
    simp only [errorPriority, List.mem_cons, List.mem_singleton, List.not_mem_nil,
      or_false, forall_eq_or_imp, forall_eq] at h
    simp [translateError, h]
  · unfold translateError
    repeat' split
    all_goals rfl
  · rfl

/-- With the overrun, receive-parity and transmit-full bits set, the entry of index 4
of the priority table (buffer overrun) decides `lastErr`. -/
theorem translateError_priority_witness :
    (translateError (CE_OVERRUN ||| CE_RXPARITY ||| CE_TXFULL) examplePort).lastErr
      = .E_BUFFER_OVERRUN :=
  (translateError_priority (CE_OVERRUN ||| CE_RXPARITY ||| CE_TXFULL) examplePort).1
    4 CE_OVERRUN .E_BUFFER_OVERRUN rfl (by decide)
    (fun j m' k' hj hget => by
      have hj4 : j < 4 := hj
      interval_cases j <;> simp [errorPriority] at hget <;> obtain ⟨rfl, rfl⟩ := hget <;>
        decide)

/-! ### What each setter stores -/

/-- The Settings stored after `setDataBits`: unchanged when the request is rejected,
the old ones with the requested DataBits otherwise. -/
theorem setDataBits_Settings (d : DataBitsType) (s : Port) :
    (setDataBits d s).1.Settings =
      if (s.Settings.StopBits = .STOP_2 ∧ d = .DATA_5) ∨
          (s.Settings.StopBits = .STOP_1_5 ∧ d ≠ .DATA_5) then s.Settings
      else { s.Settings with DataBits := d } := by
  obtain ⟨o, q, h, ⟨b, db, par, sb, fl, tm⟩, dcb, ct, le, pw, btw, oe, wn, em⟩ := s
  cases d <;> cases sb <;> cases db <;> cases o <;> simp [setDataBits]

/-- The Settings stored after `setStopBits`: unchanged when the request is rejected,
the old ones with the requested StopBits otherwise. -/
theorem setStopBits_Settings (t : StopBitsType) (s : Port) :
    (setStopBits t s).1.Settings =
      if (s.Settings.DataBits = .DATA_5 ∧ t = .STOP_2) ∨
          (t = .STOP_1_5 ∧ s.Settings.DataBits ≠ .DATA_5) then s.Settings
      else { s.Settings with StopBits := t } := by
  obtain ⟨o, q, h, ⟨b, db, par, sb, fl, tm⟩, dcb, ct, le, pw, btw, oe, wn, em⟩ := s
  cases t <;> cases sb <;> cases db <;> cases o <;> simp [setStopBits]

/-- The Settings stored after `setBaudRate`: unchanged when the requested rate is
already stored, the old ones with the quantized rate otherwise. -/
theorem setBaudRate_Settings (b : BaudRateType) (s : Port) :
    (setBaudRate b s).1.Settings =
      if s.Settings.BaudRate = b then s.Settings
      else { s.Settings with BaudRate := Q b } := by
  obtain ⟨o, q, h, ⟨b0, db, par, sb, fl, tm⟩, dcb, ct, le, pw, btw, oe, wn, em⟩ := s
  by_cases hb : b0 = b
  · subst hb
    cases o <;> simp [setBaudRate]
  · cases o <;> cases b <;> simp [setBaudRate, hb, Q]

/-- The Settings stored after `setParity`: the old ones with the requested Parity. -/
theorem setParity_Settings (p : ParityType) (s : Port) :
    (setParity p s).1.Settings = { s.Settings with Parity := p } := by
  obtain ⟨o, q, h, ⟨b0, db, par, sb, fl, tm⟩, dcb, ct, le, pw, btw, oe, wn, em⟩ := s
  by_cases hp : par = p
  · subst hp
    cases o <;> cases par <;> simp [setParity]
  · cases o <;> cases p <;> simp [setParity, hp]

/-- The Settings stored after `setFlowControl`: the old ones with the requested
FlowControl. -/
theorem setFlowControl_Settings (f : FlowType) (s : Port) :
    (setFlowControl f s).1.Settings = { s.Settings with FlowControl := f } := by
  obtain ⟨o, q, h, ⟨b0, db, par, sb, fl, tm⟩, dcb, ct, le, pw, btw, oe, wn, em⟩ := s
  by_cases hf : fl = f
  · subst hf
    cases o <;> cases fl <;> simp [setFlowControl]
  · cases o <;> cases f <;> simp [setFlowControl, hf]

/-- The Settings stored after `setTimeout`: the old ones with the requested timeout. -/
theorem setTimeout_Settings (m : Int) (s : Port) :
    (setTimeout m s).1.Settings = { s.Settings with Timeout_Millisec := m } := by
  unfold setTimeout
  simp only
  split <;> rfl


/-! ### The data-bits/stop-bits policy -/

/-- C2: every setter preserves the data-bits/stop-bits invariant. For every session,
open or closed, whose stored Settings satisfy the invariant, and every argument, the
Settings stored after `setDataBits`, `setStopBits`, `setBaudRate`, `setParity`,
`setFlowControl` or `setTimeout` satisfy it again. -/
theorem setters_preserve_invariant (s : Port) (h : SettingsInvariant s.Settings) :
    (∀ d, SettingsInvariant (setDataBits d s).1.Settings)
    ∧ (∀ t, SettingsInvariant (setStopBits t s).1.Settings)
    ∧ (∀ b, SettingsInvariant (setBaudRate b s).1.Settings)
    ∧ (∀ p, SettingsInvariant (setParity p s).1.Settings)
    ∧ (∀ f, SettingsInvariant (setFlowControl f s).1.Settings)
    ∧ (∀ m, SettingsInvariant (setTimeout m s).1.Settings) := by
  unfold SettingsInvariant compatible at h ⊢
  refine ⟨?_, ?_, ?_, ?_, ?_, ?_⟩
  · intro d
    rw [setDataBits_Settings]
    split
    · exact h
    · rename_i hv
      simp only [not_or, not_and] at hv
      constructor
      · intro h5 h2
        exact hv.1 h2 h5
      · intro h15
        by_contra hne
        exact hv.2 h15 hne
  · intro t
    rw [setStopBits_Settings]
    split
    · exact h
    · rename_i hv
      simp only [not_or, not_and] at hv
      constructor
      · intro h5 h2
        exact hv.1 h5 h2
      · intro h15
        by_contra hne
        exact hv.2 h15 hne
  · intro b
    rw [setBaudRate_Settings]
    split <;> exact h
  · intro p
    rw [setParity_Settings]
    exact h
  · intro f
    rw [setFlowControl_Settings]
    exact h
  · intro m
    rw [setTimeout_Settings]
    exact h

/-- The invariant holds for the example open session, and every setter keeps it. -/
theorem setters_preserve_invariant_witness :
    SettingsInvariant exampleOpenPort.Settings
    ∧ (∀ d, SettingsInvariant (setDataBits d exampleOpenPort).1.Settings)
    ∧ (∀ t, SettingsInvariant (setStopBits t exampleOpenPort).1.Settings)
    ∧ (∀ b, SettingsInvariant (setBaudRate b exampleOpenPort).1.Settings)
    ∧ (∀ p, SettingsInvariant (setParity p exampleOpenPort).1.Settings)
    ∧ (∀ f, SettingsInvariant (setFlowControl f exampleOpenPort).1.Settings)
    ∧ (∀ m, SettingsInvariant (setTimeout m exampleOpenPort).1.Settings) :=
  ⟨by decide, setters_preserve_invariant exampleOpenPort (by decide)⟩

/-- C3: a rejected data-bits or stop-bits request is an atomic no-op. For every
session, open or closed: when the requested data bits `d` and the stored StopBits
violate the invariant (`d` = 5 with StopBits = 2, or `d` other than 5 with
StopBits = 1.5), `setDataBits d` returns the session unchanged in every field, the
device configuration included, and performs no device configuration call; in every
other case the stored Settings afterwards are the old ones with DataBits = `d`.
The same holds for `setStopBits t` against the stored DataBits. -/
theorem rejected_request_is_noop (s : Port) (d : DataBitsType) (t : StopBitsType) :
    ((d = .DATA_5 ∧ s.Settings.StopBits = .STOP_2) ∨
        (d ≠ .DATA_5 ∧ s.Settings.StopBits = .STOP_1_5) →
      (setDataBits d s).1 = s ∧ ∀ e ∈ (setDataBits d s).2, e.isDeviceConfigCall = false)
    ∧ (¬ ((d = .DATA_5 ∧ s.Settings.StopBits = .STOP_2) ∨
        (d ≠ .DATA_5 ∧ s.Settings.StopBits = .STOP_1_5)) →
      (setDataBits d s).1.Settings = { s.Settings with DataBits := d })
    ∧ ((t = .STOP_2 ∧ s.Settings.DataBits = .DATA_5) ∨
        (t = .STOP_1_5 ∧ s.Settings.DataBits ≠ .DATA_5) →
      (setStopBits t s).1 = s ∧ ∀ e ∈ (setStopBits t s).2, e.isDeviceConfigCall = false)
    ∧ (¬ ((t = .STOP_2 ∧ s.Settings.DataBits = .DATA_5) ∨
        (t = .STOP_1_5 ∧ s.Settings.DataBits ≠ .DATA_5)) →
      (setStopBits t s).1.Settings = { s.Settings with StopBits := t }) := by
  obtain ⟨o, q, h, ⟨b, db, par, sb, fl, tm⟩, dcb, ct, le, pw, btw, oe, wn, em⟩ := s
  refine ⟨?_, ?_, ?_, ?_⟩
  · cases d <;> cases sb <;> cases db <;> cases o <;>
      simp [setDataBits, Effect.isDeviceConfigCall]
  · cases d <;> cases sb <;> cases db <;> cases o <;> simp [setDataBits]
  · cases t <;> cases sb <;> cases db <;> cases o <;>
      simp [setStopBits, Effect.isDeviceConfigCall]
  · cases t <;> cases sb <;> cases db <;> cases o <;> simp [setStopBits]

/-- On the open example session with 5 data bits and 1.5 stop bits, the request for
8 data bits is rejected: nothing changes and only a warning is printed. -/
theorem rejected_request_is_noop_witness :
    (setDataBits .DATA_8 exampleFiveBitPort).1 = exampleFiveBitPort
    ∧ ∀ e ∈ (setDataBits .DATA_8 exampleFiveBitPort).2, e.isDeviceConfigCall = false :=
  (rejected_request_is_noop exampleFiveBitPort .DATA_8 .STOP_1).1
    (Or.inr ⟨by decide, rfl⟩)


/-- C4, counterexample: on the example session (8 data bits, 1 stop bit, invariant
satisfied) the requests "5 data bits" and "2 stop bits" do not commute:
`setDataBits` first ends with (5, 1), `setStopBits` first ends with (8, 2). -/
theorem setDataBits_setStopBits_do_not_commute :
    SettingsInvariant examplePort.Settings
    ∧ (setStopBits .STOP_2 (setDataBits .DATA_5 examplePort).1).1.Settings
        ≠ (setDataBits .DATA_5 (setStopBits .STOP_2 examplePort).1).1.Settings
    ∧ (setStopBits .STOP_2 (setDataBits .DATA_5 examplePort).1).1.Settings
        = { examplePort.Settings with DataBits := .DATA_5, StopBits := .STOP_1 }
    ∧ (setDataBits .DATA_5 (setStopBits .STOP_2 examplePort).1).1.Settings
        = { examplePort.Settings with DataBits := .DATA_8, StopBits := .STOP_2 } := by
  decide

/-- C4, amended: for every session whose stored Settings (DataBits `D`, StopBits `T`)
satisfy the invariant and every `d` and `t`, the two orders of `setDataBits d` and
`setStopBits t` end with the same stored Settings if and only if (i) when `d` is
compatible with `T` and `t` with `D`, then `d` is compatible with `t`, and (ii) when
`d` is compatible with `t`, then `d` is compatible with `T` exactly when `t` is
compatible with `D`. In particular, when `d` is compatible with `T`, `t` with `D`
and `d` with `t`, both orders end with DataBits = `d` and StopBits = `t`. -/
theorem setDataBits_setStopBits_commute_iff (s : Port) (d : DataBitsType)
    (t : StopBitsType) (h : SettingsInvariant s.Settings) :
    ((setStopBits t (setDataBits d s).1).1.Settings
        = (setDataBits d (setStopBits t s).1).1.Settings
      ↔ ((compatible d s.Settings.StopBits ∧ compatible s.Settings.DataBits t →
            compatible d t)
          ∧ (compatible d t →
            (compatible d s.Settings.StopBits ↔ compatible s.Settings.DataBits t))))
    ∧ (compatible d s.Settings.StopBits → compatible s.Settings.DataBits t →
        compatible d t →
        (setStopBits t (setDataBits d s).1).1.Settings
            = { s.Settings with DataBits := d, StopBits := t }
          ∧ (setDataBits d (setStopBits t s).1).1.Settings
            = { s.Settings with DataBits := d, StopBits := t }) := by
  simp only [setStopBits_Settings, setDataBits_Settings]
  obtain ⟨o, q, hd, ⟨b, db, par, sb, fl, tm⟩, dcb, ct, le, pw, btw, oe, wn, em⟩ := s
  revert h
  cases d <;> cases t <;> cases sb <;> cases db <;>
    simp [SettingsInvariant, compatible]

/-- On the example session (8 data bits, 1 stop bit) the requests "7 data bits" and
"2 stop bits" are compatible with the stored values and with each other, and both
orders end with (7, 2). -/
theorem setDataBits_setStopBits_commute_iff_witness :
    SettingsInvariant examplePort.Settings
    ∧ (setStopBits .STOP_2 (setDataBits .DATA_7 examplePort).1).1.Settings
        = { examplePort.Settings with DataBits := .DATA_7, StopBits := .STOP_2 }
    ∧ (setDataBits .DATA_7 (setStopBits .STOP_2 examplePort).1).1.Settings
        = { examplePort.Settings with DataBits := .DATA_7, StopBits := .STOP_2 } :=
  ⟨by decide,
    (setDataBits_setStopBits_commute_iff examplePort .DATA_7 .STOP_2 (by decide)).2
      (by decide) (by decide) (by decide)⟩

/-! ### Baud-rate quantization -/

/-- C5, counterexample: on the example session that stores `BAUD50`, the call
`setBaudRate BAUD50` leaves `BAUD50` stored, which is not `Q BAUD50 = BAUD110` and
is one of the seven unsupported rates. -/
theorem setBaudRate_stored_not_quantized :
    (setBaudRate .BAUD50 exampleBaud50Port).1.Settings.BaudRate = .BAUD50
    ∧ (setBaudRate .BAUD50 exampleBaud50Port).1.Settings.BaudRate ≠ Q .BAUD50
    ∧ (setBaudRate .BAUD50 exampleBaud50Port).1.Settings.BaudRate ∈ unsupportedRates := by
  decide

/-- C5, amended: for every session and every requested rate `b`, the stored rate
after `setBaudRate b` is `b` itself when `b` was already the stored rate and `Q b`
otherwise, and no other Settings field changes; so it equals `Q b` whenever `b`
differs from the rate stored before or `b` is not one of the seven unsupported
rates, and then it is none of the seven unsupported rates. -/
theorem setBaudRate_stored (s : Port) (b : BaudRateType) :
    (setBaudRate b s).1.Settings
        = { s.Settings with BaudRate := if s.Settings.BaudRate = b then b else Q b }
    ∧ (s.Settings.BaudRate ≠ b ∨ b ∉ unsupportedRates →
        (setBaudRate b s).1.Settings.BaudRate = Q b
        ∧ (setBaudRate b s).1.Settings.BaudRate ∉ unsupportedRates) := by
  rw [setBaudRate_Settings]
  obtain ⟨o, q, hd, ⟨b0, db, par, sb, fl, tm⟩, dcb, ct, le, pw, btw, oe, wn, em⟩ := s
  constructor
  · by_cases hb : b0 = b
    · subst hb
      simp
    · simp [hb]
  · intro h
    by_cases hb : b0 = b
    · subst hb
      cases b0 <;> simp [unsupportedRates, Q] at h ⊢
    · cases b <;> simp [hb, unsupportedRates, Q]

/-- On the closed example session (9600 baud stored) the request for 76800 baud
stores `BAUD57600`. -/
theorem setBaudRate_stored_witness :
    (setBaudRate .BAUD76800 examplePort).1.Settings.BaudRate = Q .BAUD76800
    ∧ (setBaudRate .BAUD76800 examplePort).1.Settings.BaudRate ∉ unsupportedRates :=
  (setBaudRate_stored examplePort .BAUD76800).2 (Or.inl (by decide))

/-- C6: baud-rate quantization is idempotent. For every rate `b` the table satisfies
`Q (Q b) = Q b`, and the rate that a call `setBaudRate b` writes into the Settings
(it writes when `b` is not yet the stored rate) is `Q b`, a fixed point of the table;
and for every session, calling `setBaudRate b` a second time leaves the session as
the first call left it: the same stored Settings, the same device baud field, and
indeed the same value of every field. -/
theorem setBaudRate_idempotent (b : BaudRateType) (s : Port) :
    Q (Q b) = Q b
    ∧ (setBaudRate b (setBaudRate b s).1).1.Settings = (setBaudRate b s).1.Settings
    ∧ (setBaudRate b (setBaudRate b s).1).1.dcb.BaudRate
        = (setBaudRate b s).1.dcb.BaudRate
    ∧ (setBaudRate b (setBaudRate b s).1).1 = (setBaudRate b s).1
    ∧ (s.Settings.BaudRate ≠ b →
        (setBaudRate b s).1.Settings.BaudRate = Q b
        ∧ Q (setBaudRate b s).1.Settings.BaudRate = (setBaudRate b s).1.Settings.BaudRate) := by
  have hQ : Q (Q b) = Q b := by cases b <;> rfl
  have key : (setBaudRate b (setBaudRate b s).1).1 = (setBaudRate b s).1 := by
    obtain ⟨o, q, hd, ⟨b0, db, par, sb, fl, tm⟩, dcb, ct, le, pw, btw, oe, wn, em⟩ := s
    by_cases hb : b0 = b
    · subst hb
      cases o <;> cases b0 <;> simp [setBaudRate]
    · cases o <;> cases b <;> simp [setBaudRate, hb]
  refine ⟨hQ, ?_, ?_, key, ?_⟩
  · rw [key]
  · rw [key]
  · intro hne
    have hst : (setBaudRate b s).1.Settings.BaudRate = Q b := by
      rw [setBaudRate_Settings]
      simp [hne]
    rw [hst]
    exact ⟨rfl, hQ⟩

/-- On the closed example session (9600 baud stored) the request for 1800 baud
writes `BAUD1200`, which the table maps to itself. -/
theorem setBaudRate_idempotent_witness :
    (setBaudRate .BAUD1800 examplePort).1.Settings.BaudRate = Q .BAUD1800
    ∧ Q (setBaudRate .BAUD1800 examplePort).1.Settings.BaudRate
        = (setBaudRate .BAUD1800 examplePort).1.Settings.BaudRate :=
  (setBaudRate_idempotent .BAUD1800 examplePort).2.2.2.2 (by decide)

/-! ### Reading, writing, bytes available -/

/-- C7: the value `readData` and `writeData` return when the device operation fails.
For every session, every requested length and every answer of the operating system
in which `ReadFile` (for `readData`) or `WriteFile` (for `writeData`) reports a
failure (in event-driven mode: with an error other than "I/O pending"), `lastErr`
becomes `E_READ_FAILED` or `E_WRITE_FAILED`, and the value returned is
`(qint64)(DWORD)-1`, which is 4294967295 and not -1. -/
theorem failure_return_value (s : Port) (maxSize : Int) (rf gor : IoAnswer)
    (os : WriteAnswers) :
    (rf.success = false →
      (s.queryMode = .EventDriven → rf.lastError ≠ ERROR_IO_PENDING) →
      (readData rf gor maxSize s).1 = 4294967295
      ∧ (readData rf gor maxSize s).1 ≠ -1
      ∧ (readData rf gor maxSize s).2.1.lastErr = .E_READ_FAILED)
    ∧ (os.writeFile.success = false →
      (s.queryMode = .EventDriven → os.writeFile.lastError ≠ ERROR_IO_PENDING) →
      (writeData os maxSize s).1 = 4294967295
      ∧ (writeData os maxSize s).1 ≠ -1
      ∧ (writeData os maxSize s).2.1.lastErr = .E_WRITE_FAILED) := by
  have hval : toQint64 (toDWORD (-1)) = 4294967295 := by decide
  constructor
  · intro hf hp
    by_cases hm : s.queryMode = .EventDriven
    · simp [readData, hm, hf, hp hm, hval]
    · simp [readData, hm, hf, hval]
  · intro hf hp
    by_cases hm : s.queryMode = .EventDriven
    · simp [writeData, hm, hf, hp hm, hval]
    · simp [writeData, hm, hf, hval]

/-- On the open example session in polling mode, a failing `ReadFile` makes
`readData` return 4294967295 with `lastErr = E_READ_FAILED`. -/
theorem failure_return_value_witness :
    (readData ioFailed ioFailed 16 exampleOpenPort).1 = 4294967295
    ∧ (readData ioFailed ioFailed 16 exampleOpenPort).1 ≠ -1
    ∧ (readData ioFailed ioFailed 16 exampleOpenPort).2.1.lastErr = .E_READ_FAILED :=
  (failure_return_value exampleOpenPort 16 ioFailed ioFailed writeFails).1 rfl
    (fun h => by cases h)

/-- C8: the result of `bytesAvailable` by case. For every session and every answer of
the device status query: on a session that is not open the result is 0; on an open
session whose query fails it is -1; on an open session whose query succeeds with the
receive-queue count `n` (a `DWORD`) it is `n` plus the count `base` answered by the
base byte stream (a `qint64`, the sum being below `2 ^ 63`); and the session returned
is the session given. -/
theorem bytesAvailable_by_case (s : Port) (q : Option Nat) (base : Int) :
    (s.isOpen = false → (bytesAvailable q base s).1 = 0)
    ∧ (s.isOpen = true → q = none → (bytesAvailable q base s).1 = -1)
    ∧ (s.isOpen = true → ∀ n : Nat, q = some n → n < 2 ^ 32 → -2 ^ 63 ≤ base →
        n + base < 2 ^ 63 → (bytesAvailable q base s).1 = n + base)
    ∧ (bytesAvailable q base s).2.1 = s := by
  refine ⟨?_, ?_, ?_, ?_⟩
  · intro h
    simp [bytesAvailable, h]
  · intro h hq
    subst hq
    simp [bytesAvailable, h]
    decide
  · intro h n hq hn hlo hhi
    subst hq
    have hmod : n % 2 ^ 32 = n := Nat.mod_eq_of_lt hn
    simp only [bytesAvailable, h, if_true, hmod, toQint64]
    omega
  · unfold bytesAvailable
    split
    · split <;> rfl
    · rfl

/-- On the open example session with 5 bytes in the receive queue and 3 bytes
buffered by the base class, `bytesAvailable` answers 8. -/
theorem bytesAvailable_by_case_witness :
    (bytesAvailable (some 5) 3 exampleOpenPort).1 = ((5 : Nat) : Int) + 3 :=
  (bytesAvailable_by_case exampleOpenPort (some 5) 3).2.2.1 rfl 5 rfl
    (by norm_num) (by norm_num) (by norm_num)


/-! ### Closing -/

/-- The session that `close_sys` leaves, field by field. -/
theorem close_sys_state (os : CloseAnswers) (s : Port) :
    (close_sys os s).1 =
      { s with
        isOpen := false
        Win_Handle := if os.closeHandle then INVALID_HANDLE_VALUE else s.Win_Handle
        winEventNotifier := none
        _bytesToWrite := 0
        pendingWrites := [] } := by
  obtain ⟨o, q, hd, st, dcb, ct, le, pw, btw, oe, wn, em⟩ := s
  cases wn <;> cases hc : os.closeHandle <;> simp [close_sys, hc]

/-- The effects of `close_sys`, in program order. -/
theorem close_sys_effects (os : CloseAnswers) (s : Port) :
    (close_sys os s).2 =
      [.FlushFileBuffers s.Win_Handle, .CancelIo s.Win_Handle, .CloseHandle s.Win_Handle]
      ++ (match s.winEventNotifier with
          | some n => [.deleteLaterNotifier n]
          | none => [])
      ++ releasePendingWrites s.pendingWrites := by
  obtain ⟨o, q, hd, st, dcb, ct, le, pw, btw, oe, wn, em⟩ := s
  cases wn <;> cases hc : os.closeHandle <;> simp [close_sys, flush_sys, hc]

/-- How often the release loop deletes a given record: once per occurrence. -/
theorem count_delete_releasePendingWrites (o : OVERLAPPED) (l : List OVERLAPPED) :
    (releasePendingWrites l).count (.deleteOverlapped o) = l.count o := by
  induction l with
  | nil => rfl
  | cons a rest ih =>
    by_cases h : a = o
    · subst h
      simp [releasePendingWrites, List.count_cons, ih]
    · have h1 : ¬ Effect.deleteOverlapped a = Effect.deleteOverlapped o := by
        intro hc
        exact h (by injection hc)
      simp [releasePendingWrites, List.count_cons, ih, h, h1]

/-- C9, counterexample: on the open example session with handle 100, when
`CloseHandle` on the device handle fails, `close_sys` leaves the handle 100 in place,
not the invalid sentinel. -/
theorem close_sys_handle_not_invalidated :
    (close_sys closeHandleFails exampleOpenPort).1.Win_Handle = 100
    ∧ (close_sys closeHandleFails exampleOpenPort).1.Win_Handle ≠ INVALID_HANDLE_VALUE := by
  decide

/-- C9, amended: for every session (any pending writes, any counter value, either
mode) and every outcome of the operating-system calls made during the close, after
`close_sys` the pending-write collection is empty, the bytes-to-write counter is 0,
the event notifier is deregistered and the session reports not open; the device
handle is the invalid sentinel when `CloseHandle` on it reports success, and is left
as it was when `CloseHandle` reports failure. -/
theorem close_sys_retires (os : CloseAnswers) (s : Port) :
    (close_sys os s).1.pendingWrites = []
    ∧ (close_sys os s).1._bytesToWrite = 0
    ∧ (close_sys os s).1.winEventNotifier = none
    ∧ (close_sys os s).1.isOpen = false
    ∧ (os.closeHandle = true → (close_sys os s).1.Win_Handle = INVALID_HANDLE_VALUE)
    ∧ (os.closeHandle = false → (close_sys os s).1.Win_Handle = s.Win_Handle) := by
  rw [close_sys_state]
  refine ⟨rfl, rfl, rfl, rfl, ?_, ?_⟩
  · intro h
    simp [h]
  · intro h
    simp [h]

/-- On the busy example session, a close in which every call succeeds leaves the
invalid sentinel as the handle. -/
theorem close_sys_retires_witness :
    (close_sys closeAllSucceed exampleBusyPort).1.Win_Handle = INVALID_HANDLE_VALUE :=
  (close_sys_retires closeAllSucceed exampleBusyPort).2.2.2.2.1 rfl

/-- C10, counterexample: on the open example session with handle 100, a first
`close_sys` in which `CloseHandle` fails followed by a second in which it succeeds
ends with the invalid sentinel as the handle, while the first call alone leaves 100:
the session after two calls is not the session after one. -/
theorem close_sys_twice_differs :
    (close_sys closeAllSucceed (close_sys closeHandleFails exampleOpenPort).1).1.Win_Handle
        ≠ (close_sys closeHandleFails exampleOpenPort).1.Win_Handle
    ∧ (close_sys closeAllSucceed (close_sys closeHandleFails exampleOpenPort).1).1
        ≠ (close_sys closeHandleFails exampleOpenPort).1 := by
  decide

/-- C10, amended: for every session and every outcome of the operating-system calls
of two successive calls of `close_sys`, the second call leaves the open flag, the
pending-write collection, the bytes-to-write counter, the notifier registration and
the stored Settings as the first call left them, and the device handle too unless
`CloseHandle` on it failed in the first call and succeeds in the second (then the
second call sets the invalid sentinel); when the handle release has the same outcome
in both calls, or succeeded in the first, the whole session is the same. Across the
two calls each pending-write record is deleted exactly as often as it occurs in the
collection before the first call, so at most once when the entries are distinct, and
the second call deletes none. -/
theorem close_sys_idempotent (os1 os2 : CloseAnswers) (s : Port) :
    (close_sys os2 (close_sys os1 s).1).1
        = { (close_sys os1 s).1 with
            Win_Handle :=
              if os2.closeHandle then INVALID_HANDLE_VALUE
              else (close_sys os1 s).1.Win_Handle }
    ∧ (os1.closeHandle = true ∨ os2.closeHandle = false →
        (close_sys os2 (close_sys os1 s).1).1 = (close_sys os1 s).1)
    ∧ (∀ o, ((close_sys os1 s).2 ++ (close_sys os2 (close_sys os1 s).1).2).count
          (.deleteOverlapped o) = s.pendingWrites.count o)
    ∧ (s.pendingWrites.Nodup →
        ∀ o, ((close_sys os1 s).2 ++ (close_sys os2 (close_sys os1 s).1).2).count
          (.deleteOverlapped o) ≤ 1)
    ∧ (∀ o, Effect.deleteOverlapped o ∉ (close_sys os2 (close_sys os1 s).1).2) := by
  have hcount : ∀ o, ((close_sys os1 s).2 ++ (close_sys os2 (close_sys os1 s).1).2).count
      (.deleteOverlapped o) = s.pendingWrites.count o := by
    intro o
    rw [close_sys_effects, close_sys_effects, close_sys_state]
    simp only [List.count_append, count_delete_releasePendingWrites]
    cases s.winEventNotifier <;> simp [List.count_cons, releasePendingWrites]
  refine ⟨?_, ?_, hcount, ?_, ?_⟩
  · rw [close_sys_state os2, close_sys_state os1]
  · intro h
    rw [close_sys_state os2, close_sys_state os1]
    rcases h with h | h
    · simp [h]
    · simp [h]
  · intro hnd o
    rw [hcount]
    exact List.nodup_iff_count_le_one.mp hnd o
  · intro o
    rw [close_sys_effects, close_sys_state]
    simp [releasePendingWrites]

/-- On the busy example session, two closes in which every call succeeds: the second
changes nothing, and each of the two pending records is deleted at most once. -/
theorem close_sys_idempotent_witness :
    (close_sys closeAllSucceed (close_sys closeAllSucceed exampleBusyPort).1).1
        = (close_sys closeAllSucceed exampleBusyPort).1
    ∧ ∀ o, ((close_sys closeAllSucceed exampleBusyPort).2
          ++ (close_sys closeAllSucceed (close_sys closeAllSucceed exampleBusyPort).1).2).count
        (.deleteOverlapped o) ≤ 1 :=
  ⟨(close_sys_idempotent closeAllSucceed closeAllSucceed exampleBusyPort).2.1
      (Or.inl rfl),
    (close_sys_idempotent closeAllSucceed closeAllSucceed exampleBusyPort).2.2.2.1
      (by decide)⟩


/-! ### Write submission -/

/-- C11: write submission has exactly three outcomes in event-driven mode. For every
session in event-driven mode, every length `maxSize` and every answer of the
operating system, `writeData` either (1) completes at once: it returns the byte
count that `WriteFile` reported (a `DWORD`) and leaves the whole session, pending
writes and counter included, unchanged; or (2) is pending: the new record is appended
at the end of the pending writes, the counter grows by `maxSize` in `qint64`
arithmetic (exactly, when the sum is in range), `lastErr` is unchanged, and the
result is the count `WriteFile` left in `retVal`, so 0 when it reported no byte
written; or (3) fails: `lastErr` becomes `E_WRITE_FAILED`, pending writes and counter
are unchanged. In every outcome the old pending writes are a prefix of the new. -/
theorem writeData_outcomes (os : WriteAnswers) (maxSize : Int) (s : Port)
    (hm : s.queryMode = .EventDriven) :
    (os.writeFile.success = true →
      (writeData os maxSize s).1 = ((os.writeFile.numBytes % 2 ^ 32 : Nat) : Int)
      ∧ (os.writeFile.numBytes < 2 ^ 32 →
          (writeData os maxSize s).1 = (os.writeFile.numBytes : Int))
      ∧ (writeData os maxSize s).2.1 = s)
    ∧ (os.writeFile.success = false → os.writeFile.lastError = ERROR_IO_PENDING →
      (writeData os maxSize s).2.1.pendingWrites = s.pendingWrites ++ [os.newOverlapWrite]
      ∧ (writeData os maxSize s).2.1._bytesToWrite = toQint64 (s._bytesToWrite + maxSize)
      ∧ (-2 ^ 63 ≤ s._bytesToWrite + maxSize → s._bytesToWrite + maxSize < 2 ^ 63 →
          (writeData os maxSize s).2.1._bytesToWrite = s._bytesToWrite + maxSize)
      ∧ (writeData os maxSize s).2.1.lastErr = s.lastErr
      ∧ (os.writeFile.numBytes % 2 ^ 32 = 0 → (writeData os maxSize s).1 = 0))
    ∧ (os.writeFile.success = false → os.writeFile.lastError ≠ ERROR_IO_PENDING →
      (writeData os maxSize s).2.1.lastErr = .E_WRITE_FAILED
      ∧ (writeData os maxSize s).2.1.pendingWrites = s.pendingWrites
      ∧ (writeData os maxSize s).2.1._bytesToWrite = s._bytesToWrite)
    ∧ s.pendingWrites <+: (writeData os maxSize s).2.1.pendingWrites := by
  have hsmall : ∀ n : Nat, toQint64 ((n % 2 ^ 32 : Nat) : Int) = ((n % 2 ^ 32 : Nat) : Int) := by
    intro n
    have : n % 2 ^ 32 < 2 ^ 32 := Nat.mod_lt _ (by norm_num)
    unfold toQint64
    omega
  refine ⟨?_, ?_, ?_, ?_⟩
  · intro hs
    refine ⟨?_, ?_, ?_⟩
    · simp only [writeData, hm, hs, if_true]
      exact hsmall _
    · intro hlt
      simp only [writeData, hm, hs, if_true, Nat.mod_eq_of_lt hlt]
      unfold toQint64
      omega
    · simp [writeData, hm, hs]
  · intro hs hp
    refine ⟨?_, ?_, ?_, ?_, ?_⟩
    · simp [writeData, hm, hs, hp]
    · simp [writeData, hm, hs, hp]
    · intro hlo hhi
      simp only [writeData, hm, hs, hp, if_true, Bool.false_eq_true, if_false]
      unfold toQint64
      omega
    · simp [writeData, hm, hs, hp]
    · intro h0
      simp only [writeData, hm, hs, hp, if_true, Bool.false_eq_true, if_false, h0]
      decide
  · intro hs hp
    simp [writeData, hm, hs, hp]
  · by_cases hs : os.writeFile.success = true
    · simp [writeData, hm, hs]
    · have hs' : os.writeFile.success = false := by simpa using hs
      by_cases hp : os.writeFile.lastError = ERROR_IO_PENDING
      · simp [writeData, hm, hs', hp]
      · simp [writeData, hm, hs', hp]

/-- On the busy example session (two writes pending, counter 12), a write of 16
bytes that `WriteFile` reports as pending returns 0, appends its record and brings
the counter to 28. -/
theorem writeData_outcomes_witness :
    (writeData writePending 16 exampleBusyPort).1 = 0
    ∧ (writeData writePending 16 exampleBusyPort).2.1.pendingWrites
        = exampleBusyPort.pendingWrites ++ [writePending.newOverlapWrite]
    ∧ (writeData writePending 16 exampleBusyPort).2.1._bytesToWrite = 12 + 16 :=
  have h := (writeData_outcomes writePending 16 exampleBusyPort rfl).2.1 rfl rfl
  ⟨h.2.2.2.2 rfl, h.1, h.2.2.1 (by decide) (by decide)⟩


/-! ### The reconciliation pass of the notification callback -/

/-- The sum of completed byte counts is not negative. -/
theorem completedTotal_nonneg (a : OVERLAPPED → IoAnswer) (l : List OVERLAPPED) :
    0 ≤ completedTotal a l := by
  induction l with
  | nil => simp [completedTotal]
  | cons o rest ih =>
    unfold completedTotal
    split <;> omega

/-- The records the first loop marks for deletion: those whose query does not answer
"still pending", in order. -/
theorem collectCompleted_toDelete (h : HANDLE) (a : OVERLAPPED → IoAnswer)
    (l : List OVERLAPPED) (t : Int) (d : List OVERLAPPED) (e : List Effect) :
    (collectCompleted h a l t d e).2.1 = d ++ l.filter (fun o => !stillPending a o) := by
  induction l generalizing t d e with
  | nil => simp [collectCompleted]
  | cons o rest ih =>
    unfold collectCompleted
    by_cases hs : (a o).success = true
    · simp [hs, ih, stillPending]
    · have hs' : (a o).success = false := by simpa using hs
      by_cases hp : (a o).lastError = ERROR_IO_INCOMPLETE
      · simp [hs', hp, ih, stillPending]
      · simp [hs', hp, ih, stillPending]

/-- The total the first loop computes: the sum of the completed byte counts, as long
as the sum stays in the range of `qint64`. -/
theorem collectCompleted_total (h : HANDLE) (a : OVERLAPPED → IoAnswer)
    (l : List OVERLAPPED) (t : Int) (d : List OVERLAPPED) (e : List Effect)
    (h0 : 0 ≤ t) (hr : t + completedTotal a l < 2 ^ 63) :
    (collectCompleted h a l t d e).1 = t + completedTotal a l := by
  induction l generalizing t d e with
  | nil => simp [collectCompleted, completedTotal]
  | cons o rest ih =>
    have hn := completedTotal_nonneg a rest
    unfold collectCompleted
    unfold completedTotal at hr ⊢
    by_cases hs : (a o).success = true
    · simp only [hs, if_true] at hr ⊢
      have hc : toQint64 (t + (((a o).numBytes % 2 ^ 32 : Nat) : Int))
          = t + (((a o).numBytes % 2 ^ 32 : Nat) : Int) := by
        unfold toQint64
        omega
      rw [hc, ih _ _ _ (by omega) (by omega)]
      omega
    · have hs' : (a o).success = false := by simpa using hs
      simp only [hs', Bool.false_eq_true, if_false] at hr ⊢
      by_cases hp : (a o).lastError = ERROR_IO_INCOMPLETE
      · simp only [hp, ne_eq, not_true_eq_false, if_false]
        rw [ih _ _ _ h0 (by omega)]
        omega
      · simp only [hp, ne_eq, not_false_eq_true, if_true]
        rw [ih _ _ _ h0 (by omega)]
        omega

/-- The effects of the first loop: completion queries and warnings only. -/
theorem collectCompleted_effects_mem (h : HANDLE) (a : OVERLAPPED → IoAnswer)
    (l : List OVERLAPPED) (t : Int) (d : List OVERLAPPED) (e : List Effect) :
    ∀ x ∈ (collectCompleted h a l t d e).2.2,
      x ∈ e ∨ x = .GetOverlappedResult h
        ∨ x = .qWarning "CommEvent overlapped write error:" := by
  induction l generalizing t d e with
  | nil => intro x hx; exact Or.inl hx
  | cons o rest ih =>
    intro x hx
    unfold collectCompleted at hx
    by_cases hs : (a o).success = true
    · simp only [hs, if_true] at hx
      rcases ih _ _ _ x hx with h1 | h1 | h1
      · simp only [List.mem_append, List.mem_singleton] at h1
        rcases h1 with h1 | h1
        · exact Or.inl h1
        · exact Or.inr (Or.inl h1)
      · exact Or.inr (Or.inl h1)
      · exact Or.inr (Or.inr h1)
    · have hs' : (a o).success = false := by simpa using hs
      simp only [hs', Bool.false_eq_true, if_false] at hx
      by_cases hp : (a o).lastError = ERROR_IO_INCOMPLETE
      · simp only [hp, ne_eq, not_true_eq_false, if_false] at hx
        rcases ih _ _ _ x hx with h1 | h1 | h1
        · simp only [List.mem_append, List.mem_singleton] at h1
          rcases h1 with h1 | h1
          · exact Or.inl h1
          · exact Or.inr (Or.inl h1)
        · exact Or.inr (Or.inl h1)
        · exact Or.inr (Or.inr h1)
      · simp only [hp, ne_eq, not_false_eq_true, if_true] at hx
        rcases ih _ _ _ x hx with h1 | h1 | h1
        · simp only [List.mem_append, List.mem_cons, List.mem_singleton,
            List.not_mem_nil, or_false] at h1
          rcases h1 with h1 | h1 | h1
          · exact Or.inl h1
          · exact Or.inr (Or.inl h1)
          · exact Or.inr (Or.inr h1)
        · exact Or.inr (Or.inl h1)
        · exact Or.inr (Or.inr h1)

/-- The effects of the second loop are those of the release loop of `close_sys`, run
over the records marked for deletion. -/
theorem releaseCompleted_effects (del p : List OVERLAPPED) :
    (releaseCompleted del p).2 = releasePendingWrites del := by
  induction del generalizing p with
  | nil => rfl
  | cons o rest ih => simp [releaseCompleted, releasePendingWrites, ih]

/-- The pending writes the second loop leaves, when the entries are distinct: those
not marked for deletion, in order. -/
theorem releaseCompleted_pending (del p : List OVERLAPPED) (hp : p.Nodup) :
    (releaseCompleted del p).1 = p.filter (fun x => decide (x ∉ del)) := by
  induction del generalizing p with
  | nil => simp [releaseCompleted]
  | cons o rest ih =>
    simp only [releaseCompleted]
    rw [ih _ (hp.erase o), hp.erase_eq_filter o, List.filter_filter]
    apply List.filter_congr
    intro x _
    by_cases hx : x = o
    · simp [hx]
    · simp [hx]

/-- The release loop emits no `bytesWritten` signal. -/
theorem releasePendingWrites_no_bytesWritten (l : List OVERLAPPED) :
    (releasePendingWrites l).filter Effect.isBytesWritten = [] := by
  induction l with
  | nil => rfl
  | cons o rest ih => simp [releasePendingWrites, Effect.isBytesWritten, ih]


/-- The effects of `bytesAvailable`: one device status query on an open session. -/
theorem bytesAvailable_effects (q : Option Nat) (base : Int) (s : Port) :
    (bytesAvailable q base s).2.2 = if s.isOpen then [.ClearCommError s.Win_Handle] else [] := by
  unfold bytesAvailable
  split
  · split <;> rfl
  · rfl

/-- The session `onWinEvent` leaves after a notification for its own event object
with the `EV_TXEMPTY` bit set. -/
theorem onWinEvent_tx_state (h : HANDLE) (os : EventAnswers) (s : Port)
    (hh : h = s.overlap_hEvent) (htx : s.eventMask &&& EV_TXEMPTY ≠ 0) :
    (onWinEvent h os s).1 =
      { s with
        _bytesToWrite :=
          if os.senderIsThis = false ∧
              0 < (collectCompleted s.Win_Handle os.overlappedResult s.pendingWrites 0 [] []).1
          then 0 else s._bytesToWrite
        pendingWrites :=
          (releaseCompleted
            (collectCompleted s.Win_Handle os.overlappedResult s.pendingWrites 0 [] []).2.1
            s.pendingWrites).1
        eventMask := os.waitCommEvent } := by
  subst hh
  by_cases hc : os.senderIsThis = false ∧
      0 < (collectCompleted s.Win_Handle os.overlappedResult s.pendingWrites 0 [] []).1
  · have hc' : ¬ os.senderIsThis = true ∧
        (collectCompleted s.Win_Handle os.overlappedResult s.pendingWrites 0 [] []).1 > 0 := by
      simpa using hc
    simp [onWinEvent, htx, hc.1, hc.2]
  · have hc' : ¬ (¬ os.senderIsThis = true ∧
        (collectCompleted s.Win_Handle os.overlappedResult s.pendingWrites 0 [] []).1 > 0) := by
      simpa using hc
    simp [onWinEvent, htx, hc]

/-- The effects of `onWinEvent` after a notification for its own event object with
the `EV_TXEMPTY` bit set: those of the read-ready branch, the completion queries, the
`bytesWritten` signal if any, the releases, those of the line-status branch, and the
re-armed wait. -/
theorem onWinEvent_tx_effects (h : HANDLE) (os : EventAnswers) (s : Port)
    (hh : h = s.overlap_hEvent) (htx : s.eventMask &&& EV_TXEMPTY ≠ 0) :
    ∃ e1 e3 : List Effect,
      (onWinEvent h os s).2 =
        e1 ++ ((collectCompleted s.Win_Handle os.overlappedResult s.pendingWrites 0 [] []).2.2
          ++ (if os.senderIsThis = false ∧
                0 < (collectCompleted s.Win_Handle os.overlappedResult
                  s.pendingWrites 0 [] []).1
              then [.bytesWritten (collectCompleted s.Win_Handle os.overlappedResult
                  s.pendingWrites 0 [] []).1]
              else [])
          ++ releasePendingWrites
              (collectCompleted s.Win_Handle os.overlappedResult s.pendingWrites 0 [] []).2.1)
        ++ e3 ++ [.WaitCommEvent s.Win_Handle]
      ∧ (∀ x ∈ e1, x = .ClearCommError s.Win_Handle ∨ x = .readyRead)
      ∧ (∀ x ∈ e3, x = .GetCommModemStatus s.Win_Handle ∨ x = .dsrChanged true
          ∨ x = .dsrChanged false) := by
  subst hh
  refine ⟨if s.eventMask &&& EV_RXCHAR ≠ 0 then
      if ¬ os.senderIsThis then
        if (bytesAvailable os.clearCommError os.baseBytesAvailable s).1 > 0 then
          (bytesAvailable os.clearCommError os.baseBytesAvailable s).2.2 ++ [.readyRead]
        else (bytesAvailable os.clearCommError os.baseBytesAvailable s).2.2
      else []
    else [],
    if s.eventMask &&& EV_DSR ≠ 0 then
      if (lineStatus os.getCommModemStatus s).1 &&& LS_DSR ≠ 0 then
        [.GetCommModemStatus s.Win_Handle, .dsrChanged true]
      else [.GetCommModemStatus s.Win_Handle, .dsrChanged false]
    else [], ?_, ?_, ?_⟩
  · by_cases hc : os.senderIsThis = false ∧
        0 < (collectCompleted s.Win_Handle os.overlappedResult s.pendingWrites 0 [] []).1
    · have hc' : ¬ os.senderIsThis = true ∧
          (collectCompleted s.Win_Handle os.overlappedResult s.pendingWrites 0 [] []).1 > 0 := by
        simpa using hc
      simp [onWinEvent, htx, hc, hc', releaseCompleted_effects, lineStatus, lineStatus_sys]
    · have hc' : ¬ (¬ os.senderIsThis = true ∧
          (collectCompleted s.Win_Handle os.overlappedResult s.pendingWrites 0 [] []).1 > 0) := by
        simpa using hc
      simp [onWinEvent, htx, hc, hc', releaseCompleted_effects, lineStatus, lineStatus_sys]
  · intro x hx
    simp only [bytesAvailable_effects] at hx
    split_ifs at hx <;> simp at hx <;> tauto
  · intro x hx
    split at hx
    · split at hx <;> simp at hx <;> tauto
    · simp at hx


/-- When every pending write has completed, the sum of the completed byte counts is
the sum of all the byte counts `c1 + ... + cN`. -/
theorem completedTotal_all (a : OVERLAPPED → IoAnswer) (l : List OVERLAPPED)
    (hall : ∀ o ∈ l, (a o).success = true) :
    completedTotal a l = (l.map (fun o => (((a o).numBytes % 2 ^ 32 : Nat) : Int))).sum := by
  induction l with
  | nil => rfl
  | cons o rest ih =>
    have ho : (a o).success = true := hall o (List.mem_cons_self o rest)
    have hrest : ∀ x ∈ rest, (a x).success = true :=
      fun x hx => hall x (List.mem_cons_of_mem o hx)
    simp [completedTotal, ho, ih hrest]

/-- C12, counterexample: on the busy example session (two writes pending, counter
12) at a "transmit queue empty" notification sent by the notifier, when both writes
have completed successfully with 0 bytes each, `onWinEvent` emits no `bytesWritten`
signal at all and leaves the counter at 12. -/
theorem onWinEvent_no_signal_for_zero_total :
    (∀ o ∈ exampleTxEmptyPort.pendingWrites,
        ((allCompleted 0).overlappedResult o).success = true)
    ∧ (onWinEvent exampleTxEmptyPort.overlap_hEvent (allCompleted 0)
        exampleTxEmptyPort).2.filter Effect.isBytesWritten = []
    ∧ (onWinEvent exampleTxEmptyPort.overlap_hEvent (allCompleted 0)
        exampleTxEmptyPort).1._bytesToWrite = 12 := by
  decide

/-- C12, amended: for every session and every notification for its own event object
with the `EV_TXEMPTY` bit set, sent by the notifier (`sender()` is not the port),
let `c` be the sum of the byte counts of the pending writes whose completion query
answers "completed" (when all `N` pending writes have completed, `c1 + ... + cN`),
below `2 ^ 63`. When `c` is positive, `onWinEvent` emits exactly one `bytesWritten`
signal, with argument `c`, and the bytes-to-write counter is 0 afterwards; when `c`
is 0 it emits no `bytesWritten` signal and leaves the counter as it was. -/
theorem onWinEvent_aggregate_bytesWritten (h : HANDLE) (os : EventAnswers) (s : Port)
    (hh : h = s.overlap_hEvent) (htx : s.eventMask &&& EV_TXEMPTY ≠ 0)
    (hsender : os.senderIsThis = false)
    (hr : completedTotal os.overlappedResult s.pendingWrites < 2 ^ 63) :
    (0 < completedTotal os.overlappedResult s.pendingWrites →
      (onWinEvent h os s).2.filter Effect.isBytesWritten
          = [.bytesWritten (completedTotal os.overlappedResult s.pendingWrites)]
        ∧ (onWinEvent h os s).1._bytesToWrite = 0)
    ∧ (completedTotal os.overlappedResult s.pendingWrites = 0 →
      (onWinEvent h os s).2.filter Effect.isBytesWritten = []
        ∧ (onWinEvent h os s).1._bytesToWrite = s._bytesToWrite)
    ∧ ((∀ o ∈ s.pendingWrites, (os.overlappedResult o).success = true) →
      completedTotal os.overlappedResult s.pendingWrites
        = (s.pendingWrites.map
            (fun o => (((os.overlappedResult o).numBytes % 2 ^ 32 : Nat) : Int))).sum) := by
  have htot := collectCompleted_total s.Win_Handle os.overlappedResult s.pendingWrites 0 [] []
    (le_refl 0) (by omega)
  rw [zero_add] at htot
  obtain ⟨e1, e3, heff, he1, he3⟩ := onWinEvent_tx_effects h os s hh htx
  have hf1 : e1.filter Effect.isBytesWritten = [] := by
    rw [List.filter_eq_nil_iff]
    intro x hx
    rcases he1 x hx with rfl | rfl <;> simp [Effect.isBytesWritten]
  have hf3 : e3.filter Effect.isBytesWritten = [] := by
    rw [List.filter_eq_nil_iff]
    intro x hx
    rcases he3 x hx with rfl | rfl | rfl <;> simp [Effect.isBytesWritten]
  have hfc : (collectCompleted s.Win_Handle os.overlappedResult s.pendingWrites 0 [] []).2.2.filter
      Effect.isBytesWritten = [] := by
    rw [List.filter_eq_nil_iff]
    intro x hx
    rcases collectCompleted_effects_mem _ _ _ _ _ _ x hx with h1 | rfl | rfl
    · simp at h1
    · simp [Effect.isBytesWritten]
    · simp [Effect.isBytesWritten]
  refine ⟨?_, ?_, completedTotal_all _ _⟩
  · intro hpos
    constructor
    · rw [heff]
      simp [List.filter_append, hf1, hf3, hfc, releasePendingWrites_no_bytesWritten, htot,
        hsender, hpos, Effect.isBytesWritten]
    · rw [onWinEvent_tx_state h os s hh htx]
      simp [htot, hsender, hpos]
  · intro hzero
    constructor
    · rw [heff]
      simp [List.filter_append, hf1, hf3, hfc, releasePendingWrites_no_bytesWritten, htot,
        hsender, hzero, Effect.isBytesWritten]
    · rw [onWinEvent_tx_state h os s hh htx]
      simp [htot, hsender, hzero]

/-- On the busy example session at a "transmit queue empty" notification, when both
pending writes have completed with 6 bytes each, exactly one `bytesWritten` signal
with argument 12 is emitted and the counter is 0 afterwards. -/
theorem onWinEvent_aggregate_bytesWritten_witness :
    (onWinEvent exampleTxEmptyPort.overlap_hEvent (allCompleted 6)
        exampleTxEmptyPort).2.filter Effect.isBytesWritten
      = [.bytesWritten (completedTotal (allCompleted 6).overlappedResult
          exampleTxEmptyPort.pendingWrites)]
    ∧ (onWinEvent exampleTxEmptyPort.overlap_hEvent (allCompleted 6)
        exampleTxEmptyPort).1._bytesToWrite = 0 :=
  (onWinEvent_aggregate_bytesWritten exampleTxEmptyPort.overlap_hEvent (allCompleted 6)
    exampleTxEmptyPort rfl (by decide) rfl (by decide)).1 (by decide)

/-- C13: reconciliation removes exactly the finished writes. For every session whose
pending writes are pairwise distinct, every assignment of a completion-query answer
to each of them, and every notification for the session's event object with the
`EV_TXEMPTY` bit set, the pending writes after `onWinEvent` are the previous ones
whose query answered "still pending", in their original order; and each record is
deleted exactly once if it was pending and its query answered "completed" or
"failed", and never otherwise. -/
theorem onWinEvent_removes_finished (h : HANDLE) (os : EventAnswers) (s : Port)
    (hh : h = s.overlap_hEvent) (htx : s.eventMask &&& EV_TXEMPTY ≠ 0)
    (hnd : s.pendingWrites.Nodup) :
    (onWinEvent h os s).1.pendingWrites
        = s.pendingWrites.filter (stillPending os.overlappedResult)
    ∧ (∀ o, (onWinEvent h os s).2.count (.deleteOverlapped o)
        = if o ∈ s.pendingWrites ∧ stillPending os.overlappedResult o = false then 1
          else 0) := by
  constructor
  · rw [onWinEvent_tx_state h os s hh htx]
    simp only
    rw [collectCompleted_toDelete, releaseCompleted_pending _ _ hnd]
    apply List.filter_congr
    intro x hx
    simp [hx]
  · intro o
    obtain ⟨e1, e3, heff, he1, he3⟩ := onWinEvent_tx_effects h os s hh htx
    have hc1 : e1.count (.deleteOverlapped o) = 0 := by
      apply List.count_eq_zero_of_not_mem
      intro hx
      rcases he1 _ hx with h1 | h1 <;> cases h1
    have hc3 : e3.count (.deleteOverlapped o) = 0 := by
      apply List.count_eq_zero_of_not_mem
      intro hx
      rcases he3 _ hx with h1 | h1 | h1 <;> cases h1
    have hcc : (collectCompleted s.Win_Handle os.overlappedResult s.pendingWrites 0 [] []).2.2.count
        (.deleteOverlapped o) = 0 := by
      apply List.count_eq_zero_of_not_mem
      intro hx
      rcases collectCompleted_effects_mem _ _ _ _ _ _ _ hx with h1 | h1 | h1
      · simp at h1
      · cases h1
      · cases h1
    have hcb : (if os.senderIsThis = false ∧
          0 < (collectCompleted s.Win_Handle os.overlappedResult s.pendingWrites 0 [] []).1
        then [Effect.bytesWritten
          (collectCompleted s.Win_Handle os.overlappedResult s.pendingWrites 0 [] []).1]
        else []).count (.deleteOverlapped o) = 0 := by
      split <;> simp [List.count_cons]
    rw [heff]
    simp only [List.count_append, hc1, hc3, hcc, hcb, count_delete_releasePendingWrites,
      collectCompleted_toDelete, List.nil_append]
    have hw : [Effect.WaitCommEvent s.Win_Handle].count (.deleteOverlapped o) = 0 := by
      simp [List.count_cons]
    rw [hw]
    by_cases hfin : stillPending os.overlappedResult o = false
    · rw [List.count_filter (by simp [hfin])]
      by_cases hmem : o ∈ s.pendingWrites
      · simp [hmem, hfin, List.count_eq_one_of_mem hnd hmem]
      · simp [hmem, List.count_eq_zero_of_not_mem hmem]
    · have hnot : o ∉ s.pendingWrites.filter (fun x => !stillPending os.overlappedResult x) := by
        intro hx
        have := (List.mem_filter.mp hx).2
        simp at this
        exact hfin this
      simp [hfin, List.count_eq_zero_of_not_mem hnot]

/-- On the busy example session at a "transmit queue empty" notification, when the
first pending write has completed and the second is still pending, the second alone
remains pending. -/
theorem onWinEvent_removes_finished_witness :
    (onWinEvent exampleTxEmptyPort.overlap_hEvent firstCompleted
        exampleTxEmptyPort).1.pendingWrites
      = exampleTxEmptyPort.pendingWrites.filter (stillPending firstCompleted.overlappedResult) :=
  (onWinEvent_removes_finished exampleTxEmptyPort.overlap_hEvent firstCompleted
    exampleTxEmptyPort rfl (by decide) (by decide)).1

/-- C14: re-arming is unconditional. For every call of `onWinEvent` (any handle
argument, any session and event mask, any answers of the outside), the last thing
the callback does is the call `WaitCommEvent` on the session's device handle, which
the callback does not change. -/
theorem onWinEvent_rearms (h : HANDLE) (os : EventAnswers) (s : Port) :
    (onWinEvent h os s).2.getLast? = some (.WaitCommEvent s.Win_Handle)
    ∧ (∃ before, (onWinEvent h os s).2 = before ++ [.WaitCommEvent s.Win_Handle])
    ∧ (onWinEvent h os s).1.Win_Handle = s.Win_Handle := by
  have hw : ∃ before, (onWinEvent h os s).2 = before ++ [.WaitCommEvent s.Win_Handle] := by
    unfold onWinEvent
    simp only
    split_ifs <;> exact ⟨_, rfl⟩
  refine ⟨?_, hw, ?_⟩
  · obtain ⟨before, hb⟩ := hw
    rw [hb]
    simp
  · unfold onWinEvent
    simp only
    split_ifs <;> rfl


/-! ### Setters on a closed and on an open session -/

/-- On a closed session `setBaudRate` changes the Settings only and does nothing to
the outside. -/
theorem setBaudRate_closed (b : BaudRateType) (s : Port) (hc : s.isOpen = false) :
    setBaudRate b s = ({ s with Settings := (setBaudRate b s).1.Settings }, []) := by
  obtain ⟨o, q, hd, ⟨b0, db, par, sb, fl, tm⟩, dcb, ct, le, pw, btw, oe, wn, em⟩ := s
  simp only at hc
  subst hc
  by_cases hb : b0 = b
  · subst hb
    simp [setBaudRate]
  · cases b <;> simp [setBaudRate, hb]

/-- On a closed session `setDataBits` changes the Settings only and does nothing to
the outside. -/
theorem setDataBits_closed (d : DataBitsType) (s : Port) (hc : s.isOpen = false) :
    setDataBits d s = ({ s with Settings := (setDataBits d s).1.Settings }, []) := by
  obtain ⟨o, q, hd, ⟨b0, db, par, sb, fl, tm⟩, dcb, ct, le, pw, btw, oe, wn, em⟩ := s
  simp only at hc
  subst hc
  cases d <;> cases sb <;> cases db <;> simp [setDataBits]

/-- On a closed session `setStopBits` changes the Settings only and does nothing to
the outside. -/
theorem setStopBits_closed (t : StopBitsType) (s : Port) (hc : s.isOpen = false) :
    setStopBits t s = ({ s with Settings := (setStopBits t s).1.Settings }, []) := by
  obtain ⟨o, q, hd, ⟨b0, db, par, sb, fl, tm⟩, dcb, ct, le, pw, btw, oe, wn, em⟩ := s
  simp only at hc
  subst hc
  cases t <;> cases sb <;> cases db <;> simp [setStopBits]

/-- On a closed session `setParity` changes the Settings only and does nothing to
the outside. -/
theorem setParity_closed (p : ParityType) (s : Port) (hc : s.isOpen = false) :
    setParity p s = ({ s with Settings := (setParity p s).1.Settings }, []) := by
  obtain ⟨o, q, hd, ⟨b0, db, par, sb, fl, tm⟩, dcb, ct, le, pw, btw, oe, wn, em⟩ := s
  simp only at hc
  subst hc
  by_cases hp : par = p
  · subst hp
    simp [setParity]
  · simp [setParity, hp]

/-- On a closed session `setFlowControl` changes the Settings only and does nothing
to the outside. -/
theorem setFlowControl_closed (f : FlowType) (s : Port) (hc : s.isOpen = false) :
    setFlowControl f s = ({ s with Settings := (setFlowControl f s).1.Settings }, []) := by
  obtain ⟨o, q, hd, ⟨b0, db, par, sb, fl, tm⟩, dcb, ct, le, pw, btw, oe, wn, em⟩ := s
  simp only at hc
  subst hc
  by_cases hf : fl = f
  · subst hf
    simp [setFlowControl]
  · simp [setFlowControl, hf]

/-- The timeout record `setTimeout` computes, whatever the session. -/
theorem setTimeout_state (m : Int) (s : Port) :
    (setTimeout m s).1 =
      { s with
        Settings := { s.Settings with Timeout_Millisec := m }
        Win_CommTimeouts :=
          { ReadIntervalTimeout := if m = -1 then MAXDWORD else toDWORD m
            ReadTotalTimeoutMultiplier := 0
            ReadTotalTimeoutConstant := if m = -1 then 0 else toDWORD m
            WriteTotalTimeoutMultiplier := toDWORD m
            WriteTotalTimeoutConstant := 0 } } := by
  unfold setTimeout
  by_cases hm : m = -1
  · simp only [hm]
    split <;> rfl
  · simp only [hm, if_false]
    split <;> rfl

/-- The device calls of `setTimeout`: one `SetCommTimeouts` with the new record,
unless the mode is event-driven. -/
theorem setTimeout_effects (m : Int) (s : Port) :
    (setTimeout m s).2 =
      if s.queryMode ≠ .EventDriven then
        [.SetCommTimeouts s.Win_Handle (setTimeout m s).1.Win_CommTimeouts]
      else [] := by
  unfold setTimeout
  simp only
  split <;> rfl

/-- The device control block after `setBaudRate` on an open session: the native
constant of the quantized rate in `BaudRate`, nothing else changed. -/
theorem setBaudRate_dcb_open (b : BaudRateType) (s : Port) (ho : s.isOpen = true) :
    (setBaudRate b s).1.dcb = { s.dcb with BaudRate := nativeBaud (Q b) } := by
  obtain ⟨o, q, hd, ⟨b0, db, par, sb, fl, tm⟩, dcb, ct, le, pw, btw, oe, wn, em⟩ := s
  simp only at ho
  subst ho
  by_cases hb : b0 = b
  · subst hb
    cases b0 <;> simp [setBaudRate, nativeBaud, Q]
  · cases b <;> simp [setBaudRate, hb, nativeBaud, Q]


/-- C15, counterexample: on the closed example session (polling mode, invalid
handle), `setTimeout 1000` rewrites the timeout record and calls `SetCommTimeouts`
on the invalid handle. -/
theorem setTimeout_closed_touches_timeouts :
    examplePort.isOpen = false
    ∧ (setTimeout 1000 examplePort).1.Win_CommTimeouts ≠ examplePort.Win_CommTimeouts
    ∧ (setTimeout 1000 examplePort).2
        = [.SetCommTimeouts INVALID_HANDLE_VALUE
            { ReadIntervalTimeout := 1000, ReadTotalTimeoutMultiplier := 0,
              ReadTotalTimeoutConstant := 1000, WriteTotalTimeoutMultiplier := 1000,
              WriteTotalTimeoutConstant := 0 }] := by
  decide

/-- C15, amended: for every closed session and every argument, each of
`setBaudRate`, `setDataBits`, `setStopBits`, `setParity` and `setFlowControl` changes
at most its own field of the stored Settings, leaves every other field of the
session (device control block and timeout record included) unchanged and does
nothing to the outside; `setTimeout` changes the stored timeout and the in-memory
timeout record only (no field of the device control block), and in event-driven mode
does nothing to the outside. -/
theorem closed_setters_frame (s : Port) (hc : s.isOpen = false) :
    (∀ b, (setBaudRate b s).1
          = { s with Settings :=
                { s.Settings with BaudRate := (setBaudRate b s).1.Settings.BaudRate } }
        ∧ (setBaudRate b s).2 = [])
    ∧ (∀ d, (setDataBits d s).1
          = { s with Settings :=
                { s.Settings with DataBits := (setDataBits d s).1.Settings.DataBits } }
        ∧ (setDataBits d s).2 = [])
    ∧ (∀ t, (setStopBits t s).1
          = { s with Settings :=
                { s.Settings with StopBits := (setStopBits t s).1.Settings.StopBits } }
        ∧ (setStopBits t s).2 = [])
    ∧ (∀ p, (setParity p s).1 = { s with Settings := { s.Settings with Parity := p } }
        ∧ (setParity p s).2 = [])
    ∧ (∀ f, (setFlowControl f s).1
          = { s with Settings := { s.Settings with FlowControl := f } }
        ∧ (setFlowControl f s).2 = [])
    ∧ (∀ m, (setTimeout m s).1
          = { s with
              Settings := { s.Settings with Timeout_Millisec := m }
              Win_CommTimeouts := (setTimeout m s).1.Win_CommTimeouts }
        ∧ (setTimeout m s).1.dcb = s.dcb
        ∧ (s.queryMode = .EventDriven → (setTimeout m s).2 = [])) := by
  refine ⟨?_, ?_, ?_, ?_, ?_, ?_⟩
  · intro b
    obtain ⟨o, q, hd, ⟨b0, db, par, sb, fl, tm⟩, dcb, ct, le, pw, btw, oe, wn, em⟩ := s
    simp only at hc
    subst hc
    by_cases hb : b0 = b
    · subst hb
      simp [setBaudRate]
    · cases b <;> simp [setBaudRate, hb]
  · intro d
    obtain ⟨o, q, hd, ⟨b0, db, par, sb, fl, tm⟩, dcb, ct, le, pw, btw, oe, wn, em⟩ := s
    simp only at hc
    subst hc
    cases d <;> cases sb <;> cases db <;> simp [setDataBits]
  · intro t
    obtain ⟨o, q, hd, ⟨b0, db, par, sb, fl, tm⟩, dcb, ct, le, pw, btw, oe, wn, em⟩ := s
    simp only at hc
    subst hc
    cases t <;> cases sb <;> cases db <;> simp [setStopBits]
  · intro p
    have h := setParity_closed p s hc
    have hS := setParity_Settings p s
    constructor
    · rw [← hS]
      exact congrArg Prod.fst h
    · exact congrArg Prod.snd h
  · intro f
    have h := setFlowControl_closed f s hc
    have hS := setFlowControl_Settings f s
    constructor
    · rw [← hS]
      exact congrArg Prod.fst h
    · exact congrArg Prod.snd h
  · intro m
    refine ⟨?_, ?_, ?_⟩
    · rw [setTimeout_state]
    · rw [setTimeout_state]
    · intro hm
      rw [setTimeout_effects]
      simp [hm]

/-- On the closed example session, `setParity PAR_EVEN` stores the parity, changes
nothing else and does nothing to the outside. -/
theorem closed_setters_frame_witness :
    (setParity .PAR_EVEN examplePort).1
        = { examplePort with Settings := { examplePort.Settings with Parity := .PAR_EVEN } }
    ∧ (setParity .PAR_EVEN examplePort).2 = [] :=
  (closed_setters_frame examplePort rfl).2.2.2.1 .PAR_EVEN

/-! ### Timeout translation -/

/-- C16: timeout translation. For every session and every millisecond value `m`,
`setTimeout m` stores `m` as the Settings timeout; when `m = -1` the native
read-interval timeout is `MAXDWORD` and the read-total constant is 0; when `m` is not
negative (and fits a `DWORD`, as every `long` does) both equal `m`; the read-total
multiplier is always 0; and `SetCommTimeouts` is called, once and with the new
record, if and only if the mode is Polling, never in event-driven mode. -/
theorem setTimeout_translation (m : Int) (s : Port) :
    (setTimeout m s).1.Settings.Timeout_Millisec = m
    ∧ (m = -1 →
        (setTimeout m s).1.Win_CommTimeouts.ReadIntervalTimeout = MAXDWORD
        ∧ (setTimeout m s).1.Win_CommTimeouts.ReadTotalTimeoutConstant = 0)
    ∧ (0 ≤ m → m < 2 ^ 32 →
        ((setTimeout m s).1.Win_CommTimeouts.ReadIntervalTimeout : Int) = m
        ∧ ((setTimeout m s).1.Win_CommTimeouts.ReadTotalTimeoutConstant : Int) = m)
    ∧ (setTimeout m s).1.Win_CommTimeouts.ReadTotalTimeoutMultiplier = 0
    ∧ ((∃ h t, Effect.SetCommTimeouts h t ∈ (setTimeout m s).2) ↔ s.queryMode = .Polling)
    ∧ (s.queryMode = .Polling →
        (setTimeout m s).2
          = [.SetCommTimeouts s.Win_Handle (setTimeout m s).1.Win_CommTimeouts])
    ∧ (s.queryMode = .EventDriven → (setTimeout m s).2 = []) := by
  refine ⟨?_, ?_, ?_, ?_, ?_, ?_, ?_⟩
  · rw [setTimeout_state]
  · intro hm
    rw [setTimeout_state]
    simp [hm]
  · intro h0 h32
    have hne : m ≠ -1 := by omega
    have hd : ((toDWORD m : Nat) : Int) = m := by
      unfold toDWORD
      omega
    rw [setTimeout_state]
    simp [hne, hd]
  · rw [setTimeout_state]
  · rw [setTimeout_effects]
    cases hq : s.queryMode <;> simp
  · intro hq
    rw [setTimeout_effects]
    simp [hq]
  · intro hq
    rw [setTimeout_effects]
    simp [hq]

/-- On the open example session in polling mode, `setTimeout 250` sets both read
timeouts to 250. -/
theorem setTimeout_translation_witness :
    ((setTimeout 250 exampleOpenPort).1.Win_CommTimeouts.ReadIntervalTimeout : Int) = 250
    ∧ ((setTimeout 250 exampleOpenPort).1.Win_CommTimeouts.ReadTotalTimeoutConstant : Int)
        = 250 :=
  (setTimeout_translation 250 exampleOpenPort).2.2.1 (by norm_num) (by norm_num)


/-! ### Line status -/

/-- C18: line status is a bit-for-bit translation of the modem status. For every
modem-status word `w` the device returns, the result of `lineStatus_sys` has the CTS,
DSR, RI and DCD bits set exactly when `w` has the CTS-on, DSR-on, ring-on and
carrier-detect-on bits set, and no other bit; it is the same for any two sessions, so
it depends on the device answer only; and the session is left unchanged. -/
theorem lineStatus_sys_bits (w : Nat) (s s' : Port) :
    ((lineStatus_sys (some w) s).1 &&& LS_CTS ≠ 0 ↔ w &&& MS_CTS_ON ≠ 0)
    ∧ ((lineStatus_sys (some w) s).1 &&& LS_DSR ≠ 0 ↔ w &&& MS_DSR_ON ≠ 0)
    ∧ ((lineStatus_sys (some w) s).1 &&& LS_RI ≠ 0 ↔ w &&& MS_RING_ON ≠ 0)
    ∧ ((lineStatus_sys (some w) s).1 &&& LS_DCD ≠ 0 ↔ w &&& MS_RLSD_ON ≠ 0)
    ∧ (lineStatus_sys (some w) s).1 &&& (LS_CTS ||| LS_DSR ||| LS_RI ||| LS_DCD)
        = (lineStatus_sys (some w) s).1
    ∧ (lineStatus_sys (some w) s').1 = (lineStatus_sys (some w) s).1
    ∧ (lineStatus_sys (some w) s).2.1 = s := by
  simp only [lineStatus_sys, Option.getD_some]
  by_cases h1 : w &&& MS_CTS_ON = 0 <;> by_cases h2 : w &&& MS_DSR_ON = 0 <;>
    by_cases h3 : w &&& MS_RING_ON = 0 <;> by_cases h4 : w &&& MS_RLSD_ON = 0 <;>
    simp only [h1, h2, h3, h4, ne_eq, not_true_eq_false, not_false_eq_true, if_true,
      if_false, and_true, true_and] <;>
    decide

/-! ### Parity -/

/-- C19, counterexample: on the closed example session `setParity PAR_MARK` prints
no warning at all, and on the open example session with 5 data bits
`setParity PAR_SPACE` prints no portability warning. -/
theorem setParity_no_warning :
    (setParity .PAR_MARK examplePort).2 = []
    ∧ (∀ e ∈ (setParity .PAR_SPACE exampleFiveBitPort).2, e.isPortabilityWarning = false) := by
  decide

/-- C19, amended: for every session and every parity `p`, `setParity p` stores `p` as
the Settings parity and changes no other Settings field (no value is rejected); and a
portability warning is printed exactly when the session is open and `p` is Mark, or
`p` is Space with 8 data bits stored. -/
theorem setParity_accepts_and_flags (p : ParityType) (s : Port) :
    (setParity p s).1.Settings = { s.Settings with Parity := p }
    ∧ ((∃ e ∈ (setParity p s).2, e.isPortabilityWarning = true)
        ↔ s.isOpen = true ∧
          (p = .PAR_MARK ∨ (p = .PAR_SPACE ∧ s.Settings.DataBits = .DATA_8))) := by
  refine ⟨setParity_Settings p s, ?_⟩
  obtain ⟨o, q, hd, ⟨b0, db, par, sb, fl, tm⟩, dcb, ct, le, pw, btw, oe, wn, em⟩ := s
  by_cases hp : par = p
  · subst hp
    cases o <;> cases par <;> cases db <;>
      simp [setParity, Effect.isPortabilityWarning]
  · cases o <;> cases p <;> cases db <;>
      simp [setParity, hp, Effect.isPortabilityWarning]

/-- On the open example session (8 data bits) `setParity PAR_SPACE` prints a
portability warning. -/
theorem setParity_accepts_and_flags_witness :
    ∃ e ∈ (setParity .PAR_SPACE exampleOpenPort).2, e.isPortabilityWarning = true :=
  (setParity_accepts_and_flags .PAR_SPACE exampleOpenPort).2.mpr
    ⟨rfl, Or.inr ⟨rfl, rfl⟩⟩

/-! ### The direction of the quantization -/

/-- C20, counterexample: on the closed example session `setBaudRate BAUD50` stores
`BAUD110`, whose nominal value is above 50 baud, not below. -/
theorem setBaudRate_50_goes_up :
    BaudRateType.BAUD50 ∈ unsupportedRates
    ∧ (setBaudRate .BAUD50 examplePort).1.Settings.BaudRate = .BAUD110
    ∧ ¬ nominalDeciBaud (setBaudRate .BAUD50 examplePort).1.Settings.BaudRate
        < nominalDeciBaud .BAUD50 := by
  decide

/-- C20, amended: for every session and every rate `b` the platform does not support,
the rate `setBaudRate b` substitutes (the rate it writes into the Settings when `b`
is not yet stored, and whose native constant it writes to the device on an open
session) is a supported rate; for 134.5, 150, 200, 1800 and 76800 baud its nominal
value is strictly below that of `b` and it is the largest supported rate below `b`;
for 50 and 75 baud, below which no supported rate exists, it is 110 baud, the
smallest supported rate. -/
theorem quantization_direction (s : Port) (b : BaudRateType) (hb : b ∈ unsupportedRates) :
    (s.Settings.BaudRate ≠ b → (setBaudRate b s).1.Settings.BaudRate = Q b)
    ∧ (s.isOpen = true → (setBaudRate b s).1.dcb.BaudRate = nativeBaud (Q b))
    ∧ Q b ∉ unsupportedRates
    ∧ (b ≠ .BAUD50 → b ≠ .BAUD75 →
        nominalDeciBaud (Q b) < nominalDeciBaud b
        ∧ ∀ c, c ∉ unsupportedRates → nominalDeciBaud c < nominalDeciBaud b →
            nominalDeciBaud c ≤ nominalDeciBaud (Q b))
    ∧ (b = .BAUD50 ∨ b = .BAUD75 →
        Q b = .BAUD110
        ∧ nominalDeciBaud b < nominalDeciBaud (Q b)
        ∧ ∀ c, c ∉ unsupportedRates → nominalDeciBaud (Q b) ≤ nominalDeciBaud c) := by
  refine ⟨?_, ?_, ?_, ?_, ?_⟩
  · intro hne
    rw [setBaudRate_Settings]
    simp [hne]
  · intro ho
    rw [setBaudRate_dcb_open b s ho]
  · revert hb
    cases b <;> decide
  · intro h50 h75
    constructor
    · revert hb h50 h75
      cases b <;> decide
    · intro c
      revert hb h50 h75
      cases b <;> cases c <;> decide
  · intro h
    refine ⟨?_, ?_, ?_⟩
    · rcases h with rfl | rfl <;> rfl
    · rcases h with rfl | rfl <;> decide
    · intro c
      rcases h with rfl | rfl <;> cases c <;> decide

/-- On the closed example session the request for 1800 baud stores 1200 baud, which
is below 1800 baud. -/
theorem quantization_direction_witness :
    (setBaudRate .BAUD1800 examplePort).1.Settings.BaudRate = Q .BAUD1800
    ∧ nominalDeciBaud (Q .BAUD1800) < nominalDeciBaud .BAUD1800 :=
  have h := quantization_direction examplePort .BAUD1800 (by decide)
  ⟨h.1 (by decide), (h.2.2.2.1 (by decide) (by decide)).1⟩


/-! ### The session each setter leaves -/

/-- The session `setBaudRate` leaves: the Settings as in `setBaudRate_Settings`, and
on an open session the native constant of the quantized rate in the device control
block. -/
theorem setBaudRate_fst (b : BaudRateType) (s : Port) :
    (setBaudRate b s).1 =
      { s with
        Settings :=
          if s.Settings.BaudRate = b then s.Settings
          else { s.Settings with BaudRate := Q b }
        dcb :=
          if s.isOpen = true then { s.dcb with BaudRate := nativeBaud (Q b) } else s.dcb } := by
  obtain ⟨o, q, hd, ⟨b0, db, par, sb, fl, tm⟩, dcb, ct, le, pw, btw, oe, wn, em⟩ := s
  by_cases hb : b0 = b
  · subst hb
    cases o <;> cases b0 <;> simp [setBaudRate, nativeBaud, Q]
  · cases o <;> cases b <;> simp [setBaudRate, hb, nativeBaud, Q]

/-- The session `setDataBits` leaves: an accepted request is stored and, on an open
session, written to `ByteSize`; a rejected one changes nothing. -/
theorem setDataBits_fst (d : DataBitsType) (s : Port) :
    (setDataBits d s).1 =
      if (s.Settings.StopBits = .STOP_2 ∧ d = .DATA_5) ∨
          (s.Settings.StopBits = .STOP_1_5 ∧ d ≠ .DATA_5) then s
      else
        { s with
          Settings := { s.Settings with DataBits := d }
          dcb := if s.isOpen = true then { s.dcb with ByteSize := d.bits } else s.dcb } := by
  obtain ⟨o, q, hd, ⟨b0, db, par, sb, fl, tm⟩, dcb, ct, le, pw, btw, oe, wn, em⟩ := s
  cases d <;> cases sb <;> cases db <;> cases o <;> simp [setDataBits, DataBitsType.bits]

/-- The session `setStopBits` leaves: an accepted request is stored and, on an open
session, written to the native stop-bits code; a rejected one changes nothing. -/
theorem setStopBits_fst (t : StopBitsType) (s : Port) :
    (setStopBits t s).1 =
      if (s.Settings.DataBits = .DATA_5 ∧ t = .STOP_2) ∨
          (t = .STOP_1_5 ∧ s.Settings.DataBits ≠ .DATA_5) then s
      else
        { s with
          Settings := { s.Settings with StopBits := t }
          dcb := if s.isOpen = true then { s.dcb with StopBits := t.native } else s.dcb } := by
  obtain ⟨o, q, hd, ⟨b0, db, par, sb, fl, tm⟩, dcb, ct, le, pw, btw, oe, wn, em⟩ := s
  cases t <;> cases sb <;> cases db <;> cases o <;> simp [setStopBits, StopBitsType.native]

/-- The session `setParity` leaves: the parity is stored and, on an open session,
written to the device control block with the parity-enable flag. -/
theorem setParity_fst (p : ParityType) (s : Port) :
    (setParity p s).1 =
      { s with
        Settings := { s.Settings with Parity := p }
        dcb :=
          if s.isOpen = true then
            { s.dcb with Parity := p.toUChar, fParity := decide (p ≠ .PAR_NONE) }
          else s.dcb } := by
  obtain ⟨o, q, hd, ⟨b0, db, par, sb, fl, tm⟩, dcb, ct, le, pw, btw, oe, wn, em⟩ := s
  by_cases hp : par = p
  · subst hp
    cases o <;> cases par <;> simp [setParity]
  · cases o <;> cases p <;> simp [setParity, hp]

/-- The session `setFlowControl` leaves: the flow type is stored and, on an open
session, translated to the four flow flags of the device control block. -/
theorem setFlowControl_fst (f : FlowType) (s : Port) :
    (setFlowControl f s).1 =
      { s with
        Settings := { s.Settings with FlowControl := f }
        dcb :=
          if s.isOpen = true then
            { s.dcb with
              fOutxCtsFlow := f.native.1, fRtsControl := f.native.2.1,
              fInX := f.native.2.2.1, fOutX := f.native.2.2.2 }
          else s.dcb } := by
  obtain ⟨o, q, hd, ⟨b0, db, par, sb, fl, tm⟩, dcb, ct, le, pw, btw, oe, wn, em⟩ := s
  by_cases hf : fl = f
  · subst hf
    cases o <;> cases fl <;> simp [setFlowControl, FlowType.native]
  · cases o <;> cases f <;> simp [setFlowControl, hf, FlowType.native]


/-! ### Opening -/

section

attribute [local irreducible] setBaudRate setDataBits setStopBits setParity setFlowControl
  setTimeout

/-- C17: open applies the current Settings. For every session whose stored Settings
satisfy the data-bits/stop-bits invariant, every open mode other than `NotOpen` and
every answer of the operating system for which `open_sys` returns `true`, the stored
Settings afterwards are the ones stored before, and the device control block agrees
with them field by field: `BaudRate` is the native constant of the quantized rate,
`ByteSize` the number of data bits, `StopBits` the native stop-bits code, `Parity`
the parity code with `fParity` set exactly when the parity is not None, and the
CTS/RTS/XON/XOFF flags the translation of the flow type; this control block is the
one pushed to the device with `SetCommConfig` on the new handle, and the session is
open. -/
theorem open_sys_applies_settings (os : OpenAnswers) (mode : OpenMode) (s : Port)
    (hinv : SettingsInvariant s.Settings) (hmode : mode ≠ NotOpen)
    (hok : (open_sys os mode s).1 = true) :
    (open_sys os mode s).2.1.Settings = s.Settings
    ∧ (open_sys os mode s).2.1.dcb.BaudRate = nativeBaud (Q s.Settings.BaudRate)
    ∧ (open_sys os mode s).2.1.dcb.ByteSize = s.Settings.DataBits.bits
    ∧ (open_sys os mode s).2.1.dcb.StopBits = s.Settings.StopBits.native
    ∧ (open_sys os mode s).2.1.dcb.Parity = s.Settings.Parity.toUChar
    ∧ ((open_sys os mode s).2.1.dcb.fParity = true ↔ s.Settings.Parity ≠ .PAR_NONE)
    ∧ ((open_sys os mode s).2.1.dcb.fOutxCtsFlow, (open_sys os mode s).2.1.dcb.fRtsControl,
        (open_sys os mode s).2.1.dcb.fInX, (open_sys os mode s).2.1.dcb.fOutX)
          = s.Settings.FlowControl.native
    ∧ Effect.SetCommConfig os.createFile (open_sys os mode s).2.1.dcb
        ∈ (open_sys os mode s).2.2
    ∧ (open_sys os mode s).2.1.isOpen = true
    ∧ (open_sys os mode s).2.1.Win_Handle = os.createFile := by
  have hvalid : os.createFile ≠ INVALID_HANDLE_VALUE := by
    intro hbad
    simp [open_sys, hbad] at hok
  obtain ⟨o, q, hd, ⟨b0, db, par, sb, fl, tm⟩, dcb, ct, le, pw, btw, oe, wn, em⟩ := s
  have hcompat : ¬ ((sb = .STOP_2 ∧ db = .DATA_5) ∨ (sb = .STOP_1_5 ∧ db ≠ .DATA_5)) := by
    revert hinv
    cases sb <;> cases db <;> simp [SettingsInvariant, compatible]
  have hcompat' : ¬ ((db = .DATA_5 ∧ sb = .STOP_2) ∨ (sb = .STOP_1_5 ∧ db ≠ .DATA_5)) := by
    revert hinv
    cases sb <;> cases db <;> simp [SettingsInvariant, compatible]
  simp only [open_sys, hvalid, ne_eq, not_false_eq_true, if_true, setTimeout_state,
    setFlowControl_fst, setParity_fst, setStopBits_fst, setDataBits_fst, setBaudRate_fst,
    hcompat, hcompat', hmode, decide_True, if_false] at hok ⊢
  by_cases hq : q = .EventDriven
  · by_cases hm : os.setCommMask = true
    · simp [hq, hm]
    · simp [hq, hm] at hok
  · simp [hq]

end

/-- On the closed example session, an open in read/write mode in which every call
succeeds leaves the Settings as stored and 9600 baud, 8 data bits in the device
control block. -/
theorem open_sys_applies_settings_witness :
    (open_sys openSucceeds 3 examplePort).2.1.Settings = examplePort.Settings
    ∧ (open_sys openSucceeds 3 examplePort).2.1.dcb.BaudRate = CBR_9600
    ∧ (open_sys openSucceeds 3 examplePort).2.1.dcb.ByteSize = 8 :=
  have h := open_sys_applies_settings openSucceeds 3 examplePort (by decide) (by decide)
    (by decide)
  ⟨h.1, h.2.1, h.2.2.1⟩


/-! ### The device baud rate on an open session -/

/-- The effects of `setBaudRate` on an open session end with the push of the new
device control block to the device. -/
theorem setBaudRate_pushes_open (b : BaudRateType) (s : Port) (ho : s.isOpen = true) :
    (setBaudRate b s).2.getLast?
      = some (.SetCommConfig s.Win_Handle (setBaudRate b s).1.dcb) := by
  obtain ⟨o, q, hd, ⟨b0, db, par, sb, fl, tm⟩, dcb, ct, le, pw, btw, oe, wn, em⟩ := s
  simp only at ho
  subst ho
  by_cases hb : b0 = b
  · subst hb
    cases b0 <;> simp [setBaudRate]
  · cases b <;> simp [setBaudRate, hb]

/-- C21, counterexample: on the open example session that stores `BAUD50`, after
`setBaudRate BAUD50` the device baud field is `CBR_110` while the stored rate is
still `BAUD50`, an unsupported rate, which has no native constant: the device field
is not the native constant of the stored rate. -/
theorem setBaudRate_device_differs_from_stored :
    exampleOpenBaud50Port.isOpen = true
    ∧ (setBaudRate .BAUD50 exampleOpenBaud50Port).1.dcb.BaudRate = CBR_110
    ∧ (setBaudRate .BAUD50 exampleOpenBaud50Port).1.Settings.BaudRate = .BAUD50
    ∧ (setBaudRate .BAUD50 exampleOpenBaud50Port).1.Settings.BaudRate ∈ unsupportedRates
    ∧ (setBaudRate .BAUD50 exampleOpenBaud50Port).1.dcb.BaudRate
        ≠ nativeBaud (setBaudRate .BAUD50 exampleOpenBaud50Port).1.Settings.BaudRate := by
  decide

/-- C21, amended: for every open session and every rate `b` (also when `b` is
already the stored rate), after `setBaudRate b` the device baud field is the native
constant of `Q b`, no other field of the device control block and no field of the
timeout record changes, and this control block is pushed to the device; the device
baud field is the native constant of the stored rate whenever `b` differs from the
rate stored before the call or `b` is a supported rate. -/
theorem setBaudRate_device_follows_request (b : BaudRateType) (s : Port)
    (ho : s.isOpen = true) :
    (setBaudRate b s).1.dcb.BaudRate = nativeBaud (Q b)
    ∧ (setBaudRate b s).1.dcb = { s.dcb with BaudRate := nativeBaud (Q b) }
    ∧ (setBaudRate b s).1.Win_CommTimeouts = s.Win_CommTimeouts
    ∧ (setBaudRate b s).2.getLast?
        = some (.SetCommConfig s.Win_Handle (setBaudRate b s).1.dcb)
    ∧ (s.Settings.BaudRate ≠ b ∨ b ∉ unsupportedRates →
        (setBaudRate b s).1.dcb.BaudRate
          = nativeBaud (setBaudRate b s).1.Settings.BaudRate) := by
  refine ⟨?_, setBaudRate_dcb_open b s ho, ?_, setBaudRate_pushes_open b s ho, ?_⟩
  · rw [setBaudRate_dcb_open b s ho]
  · rw [setBaudRate_fst]
  · intro h
    rw [setBaudRate_dcb_open b s ho, setBaudRate_Settings]
    by_cases hb : s.Settings.BaudRate = b
    · have hsup : b ∉ unsupportedRates := by
        rcases h with h | h
        · exact absurd hb h
        · exact h
      have hQ : Q b = b := by
        revert hsup
        cases b <;> simp [unsupportedRates, Q]
      simp [hb, hQ]
    · simp [hb]

/-- On the open example session (9600 baud stored) the request for 76800 baud puts
`CBR_57600` in the device baud field, the native constant of the rate then stored. -/
theorem setBaudRate_device_follows_request_witness :
    (setBaudRate .BAUD76800 exampleOpenPort).1.dcb.BaudRate = nativeBaud (Q .BAUD76800)
    ∧ (setBaudRate .BAUD76800 exampleOpenPort).1.dcb.BaudRate
        = nativeBaud (setBaudRate .BAUD76800 exampleOpenPort).1.Settings.BaudRate :=
  have h := setBaudRate_device_follows_request .BAUD76800 exampleOpenPort rfl
  ⟨h.1, h.2.2.2.2 (Or.inl (by decide))⟩

/-! ### Read-ready dispatch -/

/-- The release loop neither emits `readyRead` nor reads from the device. -/
theorem releasePendingWrites_mem (l : List OVERLAPPED) :
    ∀ x ∈ releasePendingWrites l, x ≠ .readyRead ∧ x.isReadFile = false := by
  induction l with
  | nil => intro x hx; cases hx
  | cons o rest ih =>
    intro x hx
    simp only [releasePendingWrites, List.mem_cons] at hx
    rcases hx with rfl | rfl | hx
    · exact ⟨(by intro h; cases h), rfl⟩
    · exact ⟨(by intro h; cases h), rfl⟩
    · exact ih x hx

/-- The effects of `onWinEvent` for the session's own event object: first those of
the read-ready branch, then effects that neither emit `readyRead` nor read from the
device, and last the re-armed wait. -/
theorem onWinEvent_own_effects (os : EventAnswers) (s : Port) :
    ∃ rest : List Effect,
      (onWinEvent s.overlap_hEvent os s).2 =
        (if s.eventMask &&& EV_RXCHAR ≠ 0 then
          if os.senderIsThis = false then
            if 0 < (bytesAvailable os.clearCommError os.baseBytesAvailable s).1 then
              (bytesAvailable os.clearCommError os.baseBytesAvailable s).2.2 ++ [.readyRead]
            else (bytesAvailable os.clearCommError os.baseBytesAvailable s).2.2
          else []
        else []) ++ rest
      ∧ ∀ x ∈ rest, x ≠ .readyRead ∧ x.isReadFile = false := by
  by_cases htx : s.eventMask &&& EV_TXEMPTY ≠ 0
  · refine ⟨((collectCompleted s.Win_Handle os.overlappedResult s.pendingWrites 0 [] []).2.2
        ++ (if os.senderIsThis = false ∧
              0 < (collectCompleted s.Win_Handle os.overlappedResult
                s.pendingWrites 0 [] []).1
            then [.bytesWritten (collectCompleted s.Win_Handle os.overlappedResult
                s.pendingWrites 0 [] []).1]
            else [])
        ++ releasePendingWrites
            (collectCompleted s.Win_Handle os.overlappedResult s.pendingWrites 0 [] []).2.1)
      ++ (if s.eventMask &&& EV_DSR ≠ 0 then
            if (lineStatus os.getCommModemStatus s).1 &&& LS_DSR ≠ 0 then
              [.GetCommModemStatus s.Win_Handle, .dsrChanged true]
            else [.GetCommModemStatus s.Win_Handle, .dsrChanged false]
          else [])
      ++ [.WaitCommEvent s.Win_Handle], ?_, ?_⟩
    · by_cases hc : os.senderIsThis = false ∧
          0 < (collectCompleted s.Win_Handle os.overlappedResult s.pendingWrites 0 [] []).1
      · simp [onWinEvent, htx, hc.1, hc.2, releaseCompleted_effects, lineStatus,
          lineStatus_sys]
      · simp [onWinEvent, htx, hc, releaseCompleted_effects, lineStatus, lineStatus_sys]
    · intro x hx
      simp only [List.mem_append, List.mem_singleton] at hx
      rcases hx with (((hx | hx) | hx) | hx) | hx
      · rcases collectCompleted_effects_mem _ _ _ _ _ _ x hx with h1 | rfl | rfl
        · simp at h1
        · exact ⟨(by intro h; cases h), rfl⟩
        · exact ⟨(by intro h; cases h), rfl⟩
      · split_ifs at hx
        · simp only [List.mem_singleton] at hx
          subst hx
          exact ⟨(by intro h; cases h), rfl⟩
        · cases hx
      · exact releasePendingWrites_mem _ x hx
      · split_ifs at hx <;> simp at hx <;> rcases hx with rfl | rfl <;>
          exact ⟨(by intro h; cases h), rfl⟩
      · subst hx
        exact ⟨(by intro h; cases h), rfl⟩
  · refine ⟨(if s.eventMask &&& EV_DSR ≠ 0 then
            if (lineStatus os.getCommModemStatus s).1 &&& LS_DSR ≠ 0 then
              [.GetCommModemStatus s.Win_Handle, .dsrChanged true]
            else [.GetCommModemStatus s.Win_Handle, .dsrChanged false]
          else [])
      ++ [.WaitCommEvent s.Win_Handle], ?_, ?_⟩
    · simp [onWinEvent, htx, lineStatus, lineStatus_sys]
    · intro x hx
      simp only [List.mem_append, List.mem_singleton] at hx
      rcases hx with hx | hx
      · split_ifs at hx <;> simp at hx <;> rcases hx with rfl | rfl <;>
          exact ⟨(by intro h; cases h), rfl⟩
      · subst hx
        exact ⟨(by intro h; cases h), rfl⟩


/-- C22: read-ready dispatch. For every session and every notification delivered by
the notifier for the session's own event object, `onWinEvent` emits `readyRead` if
and only if the `EV_RXCHAR` bit is set in the event mask and `bytesAvailable()` is
greater than 0, hence neither on a closed session nor when the device status query
fails; it emits `readyRead` at most once; and it never calls `ReadFile`, so it
consumes no received byte. -/
theorem onWinEvent_readyRead (h : HANDLE) (os : EventAnswers) (s : Port)
    (hh : h = s.overlap_hEvent) (hsender : os.senderIsThis = false) :
    (Effect.readyRead ∈ (onWinEvent h os s).2
        ↔ s.eventMask &&& EV_RXCHAR ≠ 0
          ∧ 0 < (bytesAvailable os.clearCommError os.baseBytesAvailable s).1)
    ∧ (onWinEvent h os s).2.count .readyRead ≤ 1
    ∧ (s.isOpen = false → Effect.readyRead ∉ (onWinEvent h os s).2)
    ∧ (os.clearCommError = none → Effect.readyRead ∉ (onWinEvent h os s).2)
    ∧ (∀ x ∈ (onWinEvent h os s).2, x.isReadFile = false) := by
  subst hh
  obtain ⟨rest, heff, hrest⟩ := onWinEvent_own_effects os s
  have hnr : Effect.readyRead ∉ rest := fun hx => (hrest _ hx).1 rfl
  have hcnt : rest.count .readyRead = 0 := List.count_eq_zero_of_not_mem hnr
  have hrf : ∀ x ∈ rest, x.isReadFile = false := fun x hx => (hrest x hx).2
  have hba := bytesAvailable_effects os.clearCommError os.baseBytesAvailable s
  have hiff : Effect.readyRead ∈ (onWinEvent s.overlap_hEvent os s).2
      ↔ s.eventMask &&& EV_RXCHAR ≠ 0
        ∧ 0 < (bytesAvailable os.clearCommError os.baseBytesAvailable s).1 := by
    rw [heff, hba]
    by_cases hrx : s.eventMask &&& EV_RXCHAR = 0 <;>
      by_cases hpos : 0 < (bytesAvailable os.clearCommError os.baseBytesAvailable s).1 <;>
      by_cases ho : s.isOpen = true <;>
      simp [hrx, hpos, hsender, ho, hnr]
  refine ⟨hiff, ?_, ?_, ?_, ?_⟩
  · rw [heff, hba]
    by_cases hrx : s.eventMask &&& EV_RXCHAR = 0 <;>
      by_cases hpos : 0 < (bytesAvailable os.clearCommError os.baseBytesAvailable s).1 <;>
      by_cases ho : s.isOpen = true <;>
      simp [hrx, hpos, hsender, ho, hcnt, List.count_append, List.count_cons]
  · intro hc hmem
    have hpos := (hiff.mp hmem).2
    simp [bytesAvailable, hc] at hpos
  · intro hq hmem
    have hpos := (hiff.mp hmem).2
    by_cases ho : s.isOpen = true
    · simp [bytesAvailable, hq, ho] at hpos
      revert hpos
      decide
    · simp [bytesAvailable, ho] at hpos
  · intro x hx
    rw [heff, hba] at hx
    simp only [List.mem_append] at hx
    rcases hx with hx | hx
    · split_ifs at hx <;> simp at hx
      all_goals rcases hx with rfl | rfl <;> rfl
    · exact hrf x hx

/-- On the open example session at a "character received" notification with 3 bytes
in the receive queue, `readyRead` is emitted; with an empty queue it is not. -/
theorem onWinEvent_readyRead_witness :
    Effect.readyRead ∈ (onWinEvent exampleRxPort.overlap_hEvent (received 3) exampleRxPort).2
    ∧ Effect.readyRead ∉ (onWinEvent exampleRxPort.overlap_hEvent (received 0) exampleRxPort).2 :=
  ⟨(onWinEvent_readyRead exampleRxPort.overlap_hEvent (received 3) exampleRxPort rfl rfl).1.mpr
      (by decide),
    fun hmem =>
      absurd ((onWinEvent_readyRead exampleRxPort.overlap_hEvent (received 0) exampleRxPort
        rfl rfl).1.mp hmem) (by decide)⟩


/-! ### Port names -/

/-- The device prefix, character by character. -/
theorem devicePrefix_eq : devicePrefix = ['\\', '\\', '.', '\\'] := by
  decide

/-- A name is never equal to itself with the device prefix in front. -/
theorem devicePrefix_append_ne (name : List Char) : devicePrefix ++ name ≠ name := by
  intro h
  have hl := congrArg List.length h
  rw [devicePrefix_eq] at hl
  simp at hl
  omega

/-- `fullPortNameWin` prepends the device prefix to a name made of `COM` and a
capture whose conversion exceeds 9. -/
theorem fullPortNameWin_of_match (isDigitQt : Char → Bool) (rest : List Char)
    (h9 : 9 < toInt (rest.takeWhile isDigitQt)) :
    fullPortNameWin isDigitQt ('C' :: 'O' :: 'M' :: rest)
      = devicePrefix ++ 'C' :: 'O' :: 'M' :: rest := by
  have hne : rest.takeWhile isDigitQt ≠ [] := by
    intro he
    rw [he] at h9
    revert h9
    decide
  simp only [fullPortNameWin, hne, ne_eq, not_false_eq_true, if_true, gt_iff_lt, h9]

/-- `fullPortNameWin` returns every other name unchanged. -/
theorem fullPortNameWin_of_no_match (isDigitQt : Char → Bool) (name : List Char)
    (hno : ¬ ∃ rest, name = 'C' :: 'O' :: 'M' :: rest
      ∧ 9 < toInt (rest.takeWhile isDigitQt)) :
    fullPortNameWin isDigitQt name = name := by
  unfold fullPortNameWin
  split
  · rename_i rest
    have h9 : ¬ 9 < toInt (rest.takeWhile isDigitQt) := fun h => hno ⟨rest, rfl, h⟩
    simp only [gt_iff_lt, h9, if_false, ite_self]
  · rfl

/-- A name that carries the device prefix is returned unchanged. -/
theorem fullPortNameWin_prefixed (isDigitQt : Char → Bool) (name : List Char) :
    fullPortNameWin isDigitQt (devicePrefix ++ name) = devicePrefix ++ name := by
  apply fullPortNameWin_of_no_match
  rintro ⟨r, hr, _⟩
  rw [devicePrefix_eq] at hr
  simp at hr


/-- C23: port-name expansion. For every name and every character class `\d`,
`fullPortNameWin` returns the name with the device prefix in front exactly when the
name is `COM` followed by a capture of `\d` characters whose conversion `toInt`
exceeds 9, and the name unchanged otherwise; the conversion exceeds 9 exactly when
the capture consists of the digits 0 to 9, its decimal value exceeds 9 and the value
fits an `int` (at most 2147483647); applying the function to its own result changes
nothing. `COM1` to `COM9` are unchanged and `COM10` gets the prefix, but
`COM2147483648`, a name made of `COM` and a decimal number greater than 9, is
returned unchanged. -/
theorem fullPortNameWin_spec (isDigitQt : Char → Bool) (name : List Char) :
    (fullPortNameWin isDigitQt name = devicePrefix ++ name
      ↔ ∃ rest, name = 'C' :: 'O' :: 'M' :: rest ∧ 9 < toInt (rest.takeWhile isDigitQt))
    ∧ (fullPortNameWin isDigitQt name ≠ devicePrefix ++ name →
        fullPortNameWin isDigitQt name = name)
    ∧ (∀ digits : List Char, 9 < toInt digits
        ↔ digits.all Char.isDigit = true
          ∧ 9 < digits.foldl (fun acc c => 10 * acc + (c.toNat - 48)) 0
          ∧ digits.foldl (fun acc c => 10 * acc + (c.toNat - 48)) 0 ≤ 2147483647)
    ∧ fullPortNameWin isDigitQt (fullPortNameWin isDigitQt name)
        = fullPortNameWin isDigitQt name
    ∧ (∀ c ∈ "123456789".toList,
        fullPortNameWin Char.isDigit ['C', 'O', 'M', c] = ['C', 'O', 'M', c])
    ∧ fullPortNameWin Char.isDigit "COM10".toList = devicePrefix ++ "COM10".toList
    ∧ fullPortNameWin Char.isDigit "COM2147483648".toList = "COM2147483648".toList := by
  refine ⟨?_, ?_, ?_, ?_, ?_, ?_, ?_⟩
  · constructor
    · intro h
      by_contra hno
      rw [fullPortNameWin_of_no_match isDigitQt name hno] at h
      exact devicePrefix_append_ne name h.symm
    · rintro ⟨rest, rfl, h9⟩
      exact fullPortNameWin_of_match isDigitQt rest h9
  · intro hne
    by_cases hex : ∃ rest, name = 'C' :: 'O' :: 'M' :: rest
        ∧ 9 < toInt (rest.takeWhile isDigitQt)
    · obtain ⟨rest, rfl, h9⟩ := hex
      exact absurd (fullPortNameWin_of_match isDigitQt rest h9) hne
    · exact fullPortNameWin_of_no_match isDigitQt name hex
  · intro digits
    unfold toInt
    by_cases hall : digits.all Char.isDigit = true
    · by_cases hfit : digits.foldl (fun acc c => 10 * acc + (c.toNat - 48)) 0 ≤ 2147483647
      · simp only [hall, if_true, hfit, true_and, and_true]
        omega
      · simp only [hall, if_true, hfit, if_false, true_and, and_false]
        decide
    · have hall' : digits.all Char.isDigit = false := by simpa using hall
      simp [hall']
  · by_cases hex : ∃ rest, name = 'C' :: 'O' :: 'M' :: rest
        ∧ 9 < toInt (rest.takeWhile isDigitQt)
    · obtain ⟨rest, rfl, h9⟩ := hex
      rw [fullPortNameWin_of_match isDigitQt rest h9]
      exact fullPortNameWin_prefixed isDigitQt _
    · rw [fullPortNameWin_of_no_match isDigitQt name hex,
        fullPortNameWin_of_no_match isDigitQt name hex]
  · decide
  · decide
  · decide

/-- The name `COM12` with the class of the digits 0 to 9: the prefix is prepended,
and a second application changes nothing. -/
theorem fullPortNameWin_spec_witness :
    fullPortNameWin Char.isDigit "COM12".toList = devicePrefix ++ "COM12".toList
    ∧ fullPortNameWin Char.isDigit (fullPortNameWin Char.isDigit "COM12".toList)
        = fullPortNameWin Char.isDigit "COM12".toList :=
  ⟨(fullPortNameWin_spec Char.isDigit "COM12".toList).1.mpr
      ⟨"12".toList, by decide, by decide⟩,
    (fullPortNameWin_spec Char.isDigit "COM12".toList).2.2.2.1⟩


end QextSerialPort

